import Mathlib

/-!
# GUID generation and formatting (`lnktools/guid.c`)

A shallow embedding of `guid_generate` and `guid_to_string`, followed by the
properties of the two functions.

Conventions of the embedding:

* a `uint8_t *` or character buffer is an `Option (List _)`: `none` is the
  `NULL` pointer, `some cells` the pointed-to cells; the declared size is a
  separate `Nat`, as in the C signature;
* a `uint8_t` read is taken modulo `256`;
* `liberror_error_set` is modelled by the error code it records, and the
  value the function returns (`1` or `-1`) is kept next to it.
-/

namespace Guid

/-! ## Constants and collaborators that live outside `guid.c` -/

/-- Error codes recorded by `liberror_error_set` in `guid.c`: the four of the
argument domain and the one of the runtime domain. -/
inductive liberror_error_t
  | ARGUMENT_ERROR_INVALID_VALUE
  | ARGUMENT_ERROR_VALUE_TOO_SMALL
  | ARGUMENT_ERROR_VALUE_EXCEEDS_MAXIMUM
  | ARGUMENT_ERROR_UNSUPPORTED_VALUE
  | RUNTIME_ERROR_SET_FAILED
  deriving DecidableEq, Repr

/-- Modelled from the spec: `GUID_SIZE` of the absent `guid.h`; the spec fixes
"identifier binary size = 16 bytes exactly". -/
def GUID_SIZE : Nat := 16

/-- Modelled from the spec: `GUID_STRING_SIZE` of the absent `guid.h`; the spec
fixes "identifier string size = 37 (36 + terminator)". -/
def GUID_STRING_SIZE : Nat := 37

/-- Modelled from the spec: the constants `guid.c` takes from absent headers
(`SSIZE_MAX`, `_ENDIAN_BIG`, `_ENDIAN_LITTLE`, `GUID_TYPE_RANDOM`,
`GUID_TYPE_TIME`). Their values are left open; the spec makes byte order and
generation kind enumerated choices, so the two values of each are distinct, and
`SSIZE_MAX` is at least the POSIX minimum `32767`. -/
structure Platform where
  SSIZE_MAX : Nat
  ENDIAN_BIG : Int
  ENDIAN_LITTLE : Int
  GUID_TYPE_RANDOM : Nat
  GUID_TYPE_TIME : Nat
  endian_distinct : ENDIAN_BIG ≠ ENDIAN_LITTLE
  type_distinct : GUID_TYPE_RANDOM ≠ GUID_TYPE_TIME
  ssize_min : 32767 ≤ SSIZE_MAX

/-- A 64-bit platform with the byte-order markers `'b'` and `'l'`. -/
def platform64 : Platform where
  SSIZE_MAX := 9223372036854775807
  ENDIAN_BIG := 98
  ENDIAN_LITTLE := 108
  GUID_TYPE_RANDOM := 1
  GUID_TYPE_TIME := 2
  endian_distinct := by decide
  type_distinct := by decide
  ssize_min := by decide

/-- The string terminator. -/
def NUL : Char := Char.ofNat 0

/-- The `%.2x` conversion of `printf` (`"%.2" PRIx8`): the lower-case
hexadecimal digits of the argument, zero-padded on the left to at least two
digits. -/
def printf_02x (v : Nat) : List Char :=
  let digits := Nat.toDigits 16 v
  List.replicate (2 - digits.length) '0' ++ digits

/-- One item of a `printf` format string as used in `guid.c`. -/
inductive FormatItem
  | literal (c : Char)
  | hex2
  deriving DecidableEq, Repr

/-- The format string both branches of `guid_to_string` pass to
`libsystem_string_snprintf`: sixteen `%.2x` conversions with a `-` before the
5th, 7th, 9th and 11th. -/
def GUID_FORMAT : List FormatItem :=
  [.hex2, .hex2, .hex2, .hex2,
   .literal '-', .hex2, .hex2,
   .literal '-', .hex2, .hex2,
   .literal '-', .hex2, .hex2,
   .literal '-', .hex2, .hex2, .hex2, .hex2, .hex2, .hex2]

/-- The text `printf` produces for a format and its arguments. -/
def format_text : List FormatItem → List Nat → List Char
  | [], _ => []
  | .literal c :: items, args => c :: format_text items args
  | .hex2 :: items, a :: args => printf_02x a ++ format_text items args
  | .hex2 :: items, [] => format_text items []

/-- Stores the values `xs` into the cells of a buffer from index `offset` on,
one cell at a time; a store outside the buffer has no effect on the model. -/
def store_cells {α : Type} (cells : List α) (offset : Nat) : List α → List α
  | [] => cells
  | x :: xs => store_cells (cells.set offset x) (offset + 1) xs

/-- Modelled from the spec: `libsystem_string_snprintf` of the absent libsystem,
the "underlying formatting primitive". It behaves as C99 `snprintf`: with a
capacity of `string_size` it stores at most `string_size - 1` characters of the
text and a terminator after them, and reports the character count of the whole
text. -/
def libsystem_string_snprintf (string : List Char) (string_size : Nat)
    (text : List Char) : List Char × Int :=
  if string_size = 0 then (string, (text.length : Int))
  else (store_cells string 0 (text.take (string_size - 1) ++ [NUL]), (text.length : Int))

/-! ## `guid_to_string` -/

/-- Reads `guid[ i ]`, a `uint8_t`. -/
def guid_at (guid : List Nat) (i : Nat) : Nat := guid.getD i 0 % 256

/-- What a call of `guid_to_string` leaves behind: the returned value, the
error recorded (if any) and the two buffers. -/
structure to_string_result where
  ret : Int
  error : Option liberror_error_t
  guid : Option (List Nat)
  string : Option (List Char)
  deriving DecidableEq, Repr

/-- The function `guid_to_string` of `guid.c`. -/
def guid_to_string (p : Platform) (guid : Option (List Nat)) (guid_size : Nat)
    (byte_order : Int) (string : Option (List Char)) (string_size : Nat) :
    to_string_result :=
  match guid with
  | none => ⟨-1, some .ARGUMENT_ERROR_INVALID_VALUE, guid, string⟩
  | some g =>
    if guid_size < GUID_SIZE then
      ⟨-1, some .ARGUMENT_ERROR_VALUE_TOO_SMALL, guid, string⟩
    else if guid_size > p.SSIZE_MAX then
      ⟨-1, some .ARGUMENT_ERROR_VALUE_EXCEEDS_MAXIMUM, guid, string⟩
    else if byte_order ≠ p.ENDIAN_BIG ∧ byte_order ≠ p.ENDIAN_LITTLE then
      ⟨-1, some .ARGUMENT_ERROR_UNSUPPORTED_VALUE, guid, string⟩
    else
      match string with
      | none => ⟨-1, some .ARGUMENT_ERROR_INVALID_VALUE, guid, string⟩
      | some s =>
        if string_size < GUID_STRING_SIZE then
          ⟨-1, some .ARGUMENT_ERROR_VALUE_TOO_SMALL, guid, string⟩
        else if string_size > p.SSIZE_MAX then
          ⟨-1, some .ARGUMENT_ERROR_VALUE_EXCEEDS_MAXIMUM, guid, string⟩
        else
          let printed : List Char × Int :=
            if byte_order = p.ENDIAN_BIG then
              libsystem_string_snprintf s string_size
                (format_text GUID_FORMAT
                  [guid_at g 0, guid_at g 1, guid_at g 2, guid_at g 3,
                   guid_at g 4, guid_at g 5,
                   guid_at g 6, guid_at g 7,
                   guid_at g 8, guid_at g 9,
                   guid_at g 10, guid_at g 11, guid_at g 12, guid_at g 13,
                   guid_at g 14, guid_at g 15])
            else if byte_order = p.ENDIAN_LITTLE then
              libsystem_string_snprintf s string_size
                (format_text GUID_FORMAT
                  [guid_at g 3, guid_at g 2, guid_at g 1, guid_at g 0,
                   guid_at g 5, guid_at g 4,
                   guid_at g 7, guid_at g 6,
                   guid_at g 8, guid_at g 9,
                   guid_at g 10, guid_at g 11, guid_at g 12, guid_at g 13,
                   guid_at g 14, guid_at g 15])
            else (s, 0)
          let print_count : Int := printed.2
          if print_count < 0 ∨ print_count.toNat > string_size then
            ⟨-1, some .RUNTIME_ERROR_SET_FAILED, guid, some printed.1⟩
          else
            ⟨1, none, guid, some printed.1⟩

/-! ## `guid_generate` -/

/-- The `UUID` record of `rpcdce.h` that `UuidCreate` fills: `Data1` is 32 bits
wide, `Data2` and `Data3` 16 bits, `Data4` eight bytes. -/
structure UUID where
  Data1 : Nat
  Data2 : Nat
  Data3 : Nat
  Data4 : List Nat
  deriving DecidableEq, Repr

/-- The preprocessor symbols `guid.c` branches on. -/
structure Build where
  WINAPI : Bool
  HAVE_GUID_SUPPORT : Bool
  HAVE_UUID_GENERATE_RANDOM : Bool
  HAVE_UUID_GENERATE_TIME : Bool
  deriving DecidableEq, Repr

/-- The condition under which `guid_generate` is compiled:
`defined( HAVE_GUID_SUPPORT ) || defined( WINAPI )`. -/
def Build.has_guid_generate (b : Build) : Bool := b.HAVE_GUID_SUPPORT || b.WINAPI

/-- The host primitives `guid_generate` can call. -/
inductive HostCall
  | UuidCreate
  | UuidCreateSequential
  | uuid_generate_random
  | uuid_generate_time
  deriving DecidableEq, Repr

/-- What each host primitive delivers when it is called: the host is outside
the program, so its answers are parameters. The two libuuid primitives fill a
`uuid_t`, an array of 16 bytes. -/
structure Host where
  UuidCreate : UUID
  UuidCreateSequential : UUID
  uuid_generate_random : List Nat
  uuid_generate_time : List Nat

/-- The 16 bytes of a `uuid_t`. -/
def uuid_t_bytes (out : List Nat) : List Nat :=
  (List.range 16).map (fun i => out.getD i 0 % 256)

/-- Modelled from the spec: the macro `endian_little_revert_32bit` of the absent
`endian.h`, "little-endian encoding" of a 32-bit value: the least significant
byte is stored first. `offset` is where the pointer `bytes` stands. -/
def endian_little_revert_32bit (bytes : List Nat) (offset : Nat) (value : Nat) :
    List Nat :=
  (((bytes.set offset (value % 256)).set (offset + 1) (value / 256 % 256)).set
    (offset + 2) (value / 65536 % 256)).set (offset + 3) (value / 16777216 % 256)

/-- Modelled from the spec: the macro `endian_little_revert_16bit` of the absent
`endian.h`, "little-endian encoding" of a 16-bit value. -/
def endian_little_revert_16bit (bytes : List Nat) (offset : Nat) (value : Nat) :
    List Nat :=
  (bytes.set offset (value % 256)).set (offset + 1) (value / 256 % 256)

/-- The serialisation under `#if defined( WINAPI )` at the end of
`guid_generate`: the three integer fields through the `endian_little_revert`
macros, then the eight bytes of `Data4` one by one. -/
def store_uuid (guid : List Nat) (uuid : UUID) : List Nat :=
  let g1 := endian_little_revert_32bit guid 0 uuid.Data1
  let g2 := endian_little_revert_16bit g1 4 uuid.Data2
  let g3 := endian_little_revert_16bit g2 6 uuid.Data3
  ((((((((g3.set 8 (uuid.Data4.getD 0 0 % 256)).set 9 (uuid.Data4.getD 1 0 % 256)).set
    10 (uuid.Data4.getD 2 0 % 256)).set 11 (uuid.Data4.getD 3 0 % 256)).set
    12 (uuid.Data4.getD 4 0 % 256)).set 13 (uuid.Data4.getD 5 0 % 256)).set
    14 (uuid.Data4.getD 6 0 % 256)).set 15 (uuid.Data4.getD 7 0 % 256))

/-- What a call of `guid_generate` leaves behind: the returned value, the
error recorded (if any), the buffer and the host primitives called, in
order. -/
structure generate_result where
  ret : Int
  error : Option liberror_error_t
  guid : Option (List Nat)
  calls : List HostCall
  deriving DecidableEq, Repr

/-- The state of `guid_generate` between its statements: the local `uuid`, the
buffer and the host primitives called so far. -/
structure generate_state where
  uuid : UUID
  guid : List Nat
  calls : List HostCall

/-- The statement `if( guid_type == GUID_TYPE_RANDOM ) ...` of
`guid_generate`. -/
def generate_random (b : Build) (h : Host) (st : generate_state) : generate_state :=
  if b.WINAPI then
    { st with uuid := h.UuidCreate, calls := st.calls ++ [.UuidCreate] }
  else if b.HAVE_UUID_GENERATE_RANDOM then
    { st with guid := store_cells st.guid 0 (uuid_t_bytes h.uuid_generate_random),
              calls := st.calls ++ [.uuid_generate_random] }
  else st

/-- The statement `if( guid_type == GUID_TYPE_TIME ) ...` of `guid_generate`. -/
def generate_time (b : Build) (h : Host) (st : generate_state) : generate_state :=
  if b.WINAPI then
    { st with uuid := h.UuidCreateSequential, calls := st.calls ++ [.UuidCreateSequential] }
  else if b.HAVE_UUID_GENERATE_TIME then
    { st with guid := store_cells st.guid 0 (uuid_t_bytes h.uuid_generate_time),
              calls := st.calls ++ [.uuid_generate_time] }
  else st

/-- The function `guid_generate` of `guid.c`, for a build, a platform and the
answers of the host. -/
def guid_generate (b : Build) (p : Platform) (h : Host) (guid : Option (List Nat))
    (guid_size : Nat) (guid_type : Nat) : generate_result :=
  match guid with
  | none => ⟨-1, some .ARGUMENT_ERROR_INVALID_VALUE, guid, []⟩
  | some g =>
    if guid_size < GUID_SIZE then
      ⟨-1, some .ARGUMENT_ERROR_VALUE_TOO_SMALL, guid, []⟩
    else if guid_size > p.SSIZE_MAX then
      ⟨-1, some .ARGUMENT_ERROR_VALUE_EXCEEDS_MAXIMUM, guid, []⟩
    else if guid_type ≠ p.GUID_TYPE_RANDOM ∧ guid_type ≠ p.GUID_TYPE_TIME then
      ⟨-1, some .ARGUMENT_ERROR_UNSUPPORTED_VALUE, guid, []⟩
    else
      let st0 : generate_state := ⟨⟨0, 0, 0, [0, 0, 0, 0, 0, 0, 0, 0]⟩, g, []⟩
      let st1 := if guid_type = p.GUID_TYPE_RANDOM then generate_random b h st0 else st0
      let st2 := if guid_type = p.GUID_TYPE_TIME then generate_time b h st1 else st1
      let g3 := if b.WINAPI then store_uuid st2.guid st2.uuid else st2.guid
      ⟨1, none, some g3, st2.calls⟩

/-! ## The canonical string, as the specification words it -/

/-- The lower-case hexadecimal digit of a value below 16. -/
def hexdigit (n : Nat) : Char := "0123456789abcdef".toList.getD n '0'

/-- The 2-digit zero-padded lower-case hexadecimal of a byte: `hex2(b)`. -/
def hex2 (b : Nat) : List Char := [hexdigit (b / 16), hexdigit (b % 16)]

/-- The canonical string of the bytes of `g` taken at the sixteen indices
`idx`, in that order: hex2 of each, with a hyphen after the 4th, 6th, 8th and
10th. -/
def canonical (g : List Nat) (idx : List Nat) : List Char :=
  let h := fun k => hex2 (guid_at g (idx.getD k 0))
  h 0 ++ h 1 ++ h 2 ++ h 3 ++ ['-'] ++ h 4 ++ h 5 ++ ['-'] ++ h 6 ++ h 7 ++ ['-'] ++
    h 8 ++ h 9 ++ ['-'] ++ h 10 ++ h 11 ++ h 12 ++ h 13 ++ h 14 ++ h 15

/-- Storage order: `[0,1,2,3]-[4,5]-[6,7]-[8,9]-[10,11,12,13,14,15]`. -/
def big_order : List Nat := [0, 1, 2, 3, 4, 5, 6, 7, 8, 9, 10, 11, 12, 13, 14, 15]

/-- The little-endian order: `[3,2,1,0]-[5,4]-[7,6]-[8,9]-[10,11,12,13,14,15]`. -/
def little_order : List Nat := [3, 2, 1, 0, 5, 4, 7, 6, 8, 9, 10, 11, 12, 13, 14, 15]

/-- A buffer of bytes: every cell holds a value below 256. -/
def is_bytes (g : List Nat) : Prop := ∀ b ∈ g, b < 256

instance (g : List Nat) : Decidable (is_bytes g) := by
  unfold is_bytes; infer_instance

/-- The characters `0-9a-f`. -/
def lower_hex_chars : List Char := "0123456789abcdef".toList

/-- The seven argument checks of `guid_to_string`, as the specification lists
them: both buffers present, `16 ≤ guid_size ≤ SSIZE_MAX`, the byte order big or
little, `37 ≤ string_size ≤ SSIZE_MAX`. -/
def checks_pass (p : Platform) (guid : Option (List Nat)) (guid_size : Nat)
    (byte_order : Int) (string : Option (List Char)) (string_size : Nat) : Prop :=
  guid ≠ none ∧ 16 ≤ guid_size ∧ guid_size ≤ p.SSIZE_MAX ∧
    (byte_order = p.ENDIAN_BIG ∨ byte_order = p.ENDIAN_LITTLE) ∧
    string ≠ none ∧ 37 ≤ string_size ∧ string_size ≤ p.SSIZE_MAX

/-- The `%0Nx` conversion of `printf` with `N = width`: the lower-case
hexadecimal digits of an integer, zero-padded on the left to `width`
characters. -/
def printf_0x (width : Nat) (v : Nat) : List Char :=
  let digits := Nat.toDigits 16 v
  List.replicate (width - digits.length) '0' ++ digits

/-- The integer a run of bytes encodes big-endian (first byte most
significant). -/
def decode_big (bytes : List Nat) : Nat := bytes.foldl (fun acc b => acc * 256 + b) 0

/-- The integer a run of bytes encodes little-endian (first byte least
significant). -/
def decode_little (bytes : List Nat) : Nat := decode_big bytes.reverse

/-- The rendering `"%08x-%04x-%04x-%04x-%012x"` of the five field values of
`g`: the first three fields decoded with the selected byte order, the last two
always big-endian. -/
def field_text (p : Platform) (byte_order : Int) (g : List Nat) : List Char :=
  let decode := if byte_order = p.ENDIAN_BIG then decode_big else decode_little
  printf_0x 8 (decode [guid_at g 0, guid_at g 1, guid_at g 2, guid_at g 3]) ++ ['-'] ++
  printf_0x 4 (decode [guid_at g 4, guid_at g 5]) ++ ['-'] ++
  printf_0x 4 (decode [guid_at g 6, guid_at g 7]) ++ ['-'] ++
  printf_0x 4 (decode_big [guid_at g 8, guid_at g 9]) ++ ['-'] ++
  printf_0x 12 (decode_big [guid_at g 10, guid_at g 11, guid_at g 12, guid_at g 13,
    guid_at g 14, guid_at g 15])

/-- The argument checks of `guid_generate`, as the specification lists them:
the buffer present, `16 ≤ guid_size ≤ SSIZE_MAX`, the kind random or
time-based. -/
def generate_checks_pass (p : Platform) (guid : Option (List Nat)) (guid_size : Nat)
    (guid_type : Nat) : Prop :=
  guid ≠ none ∧ 16 ≤ guid_size ∧ guid_size ≤ p.SSIZE_MAX ∧
    (guid_type = p.GUID_TYPE_RANDOM ∨ guid_type = p.GUID_TYPE_TIME)

/-- A record whose fields fit their C types: `Data1` 32 bits, `Data2` and
`Data3` 16 bits, `Data4` eight bytes. -/
def UUID.well_formed (u : UUID) : Prop :=
  u.Data1 < 4294967296 ∧ u.Data2 < 65536 ∧ u.Data3 < 65536 ∧
    u.Data4.length = 8 ∧ ∀ b ∈ u.Data4, b < 256

instance (u : UUID) : Decidable u.well_formed := by
  unfold UUID.well_formed; infer_instance

/-- The flat 16-byte layout of a record as the specification words it: the
first three fields little-endian, then the eight trailing bytes verbatim. -/
def encode_record_as_bytes (u : UUID) : List Nat :=
  [u.Data1 % 256, u.Data1 / 256 % 256, u.Data1 / 65536 % 256, u.Data1 / 16777216 % 256,
   u.Data2 % 256, u.Data2 / 256 % 256,
   u.Data3 % 256, u.Data3 / 256 % 256,
   u.Data4.getD 0 0 % 256, u.Data4.getD 1 0 % 256, u.Data4.getD 2 0 % 256,
   u.Data4.getD 3 0 % 256, u.Data4.getD 4 0 % 256, u.Data4.getD 5 0 % 256,
   u.Data4.getD 6 0 % 256, u.Data4.getD 7 0 % 256]

/-- Reads a record back from the flat layout: bytes 0-3, 4-5 and 6-7 as
little-endian integers, bytes 8-15 as they are. -/
def decode_record (bytes : List Nat) : UUID :=
  ⟨decode_little (bytes.take 4), decode_little ((bytes.drop 4).take 2),
   decode_little ((bytes.drop 6).take 2), (bytes.drop 8).take 8⟩

/-- The canonical string of a record: 8 hex digits of `Data1`, 4 of `Data2`, 4
of `Data3`, hex2 of `Data4[0]` and `Data4[1]`, then hex2 of `Data4[2]` to
`Data4[7]`, hyphens between the groups. -/
def record_text (u : UUID) : List Char :=
  printf_0x 8 u.Data1 ++ ['-'] ++ printf_0x 4 u.Data2 ++ ['-'] ++ printf_0x 4 u.Data3 ++ ['-'] ++
  hex2 (u.Data4.getD 0 0) ++ hex2 (u.Data4.getD 1 0) ++ ['-'] ++
  hex2 (u.Data4.getD 2 0) ++ hex2 (u.Data4.getD 3 0) ++ hex2 (u.Data4.getD 4 0) ++
  hex2 (u.Data4.getD 5 0) ++ hex2 (u.Data4.getD 6 0) ++ hex2 (u.Data4.getD 7 0)

/-- The record the WINAPI build asks the host for: `UuidCreate` for the random
kind, `UuidCreateSequential` for the time-based kind. -/
def Host.record (h : Host) (p : Platform) (guid_type : Nat) : UUID :=
  if guid_type = p.GUID_TYPE_RANDOM then h.UuidCreate else h.UuidCreateSequential

/-- A host whose four primitives deliver four different identifiers. -/
def host_example : Host where
  UuidCreate := ⟨0x01020304, 0x0506, 0x0708, [9, 10, 11, 12, 13, 14, 15, 16]⟩
  UuidCreateSequential := ⟨0xa1a2a3a4, 0xa5a6, 0xa7a8, [169, 170, 171, 172, 173, 174, 175, 176]⟩
  uuid_generate_random := List.replicate 16 0x11
  uuid_generate_time := List.replicate 16 0x22

/-- A libuuid build that has `uuid_generate_time` and lacks
`uuid_generate_random`. -/
def build_time_only : Build := ⟨false, true, false, true⟩

/-- The last `width` hexadecimal digits of `v`, most significant first. -/
def hex_fixed : Nat → Nat → List Char
  | 0, _ => []
  | width + 1, v => hex_fixed width (v / 16) ++ [hexdigit (v % 16)]

/-- The identifier `g` with bytes 0-3, 4-5 and 6-7 each reversed. -/
def swap_fields (g : List Nat) : List Nat :=
  [g.getD 3 0, g.getD 2 0, g.getD 1 0, g.getD 0 0, g.getD 5 0, g.getD 4 0,
   g.getD 7 0, g.getD 6 0] ++ g.drop 8

end Guid


namespace Guid

/-! ## Lemmas on the formatting primitive -/

set_option maxRecDepth 100000 in
theorem printf_02x_byte : ∀ v, v < 256 → printf_02x v = hex2 v := by
  decide

theorem store_cells_length {α : Type} (xs : List α) :
    ∀ (cells : List α) (offset : Nat), (store_cells cells offset xs).length = cells.length := by
  induction xs with
  | nil => intro cells offset; rfl
  | cons x xs ih =>
    intro cells offset
    simp [store_cells, ih]

theorem store_cells_getElem? {α : Type} (xs : List α) :
    ∀ (cells : List α) (offset j : Nat),
      (store_cells cells offset xs)[j]? =
        if offset ≤ j ∧ j < offset + xs.length ∧ j < cells.length then xs[j - offset]?
        else cells[j]? := by
  induction xs with
  | nil =>
    intro cells offset j
    have : ¬ (offset ≤ j ∧ j < offset + ([] : List α).length ∧ j < cells.length) := by
      simp only [List.length_nil]; omega
    rw [if_neg this]; rfl
  | cons x xs ih =>
    intro cells offset j
    simp only [store_cells, ih, List.length_set, List.length_cons, List.getElem?_set]
    by_cases h1 : offset = j
    · subst h1
      by_cases h2 : offset < cells.length
      · have : ¬ (offset + 1 ≤ offset ∧ offset < offset + 1 + xs.length ∧ offset < cells.length) := by
          omega
        simp [this, h2]
      · have : ¬ (offset + 1 ≤ offset ∧ offset < offset + 1 + xs.length ∧ offset < cells.length) := by
          omega
        simp only [h2, and_false, if_false, if_true]
        exact (List.getElem?_eq_none (Nat.le_of_not_lt h2)).symm
    · by_cases h3 : offset + 1 ≤ j ∧ j < offset + 1 + xs.length ∧ j < cells.length
      · have h4 : offset ≤ j ∧ j < offset + (xs.length + 1) ∧ j < cells.length := by omega
        have h5 : j - offset = (j - (offset + 1)) + 1 := by omega
        simp [h1, h3, h4, h5]
      · have h4 : ¬ (offset ≤ j ∧ j < offset + (xs.length + 1) ∧ j < cells.length) := by omega
        simp [h1, h3, h4]

theorem store_cells_zero {α : Type} (xs cells : List α) (h : xs.length ≤ cells.length) :
    store_cells cells 0 xs = xs ++ cells.drop xs.length := by
  apply List.ext_getElem?
  intro j
  rw [store_cells_getElem?]
  by_cases hj : j < xs.length
  · have : 0 ≤ j ∧ j < 0 + xs.length ∧ j < cells.length := by omega
    rw [if_pos this, List.getElem?_append_left hj]
    simp
  · have : ¬ (0 ≤ j ∧ j < 0 + xs.length ∧ j < cells.length) := by omega
    simp only [this, if_false]
    rw [List.getElem?_append_right (by omega), List.getElem?_drop]
    congr 1
    omega

theorem guid_at_lt (g : List Nat) (i : Nat) : guid_at g i < 256 := by
  unfold guid_at; omega

theorem format_text_guid (g : List Nat) (i0 i1 i2 i3 i4 i5 i6 i7 i8 i9 i10 i11 i12 i13 i14 i15 : Nat) :
    format_text GUID_FORMAT
      [guid_at g i0, guid_at g i1, guid_at g i2, guid_at g i3, guid_at g i4, guid_at g i5,
       guid_at g i6, guid_at g i7, guid_at g i8, guid_at g i9, guid_at g i10, guid_at g i11,
       guid_at g i12, guid_at g i13, guid_at g i14, guid_at g i15]
      = canonical g [i0, i1, i2, i3, i4, i5, i6, i7, i8, i9, i10, i11, i12, i13, i14, i15] := by
  simp only [format_text, GUID_FORMAT, printf_02x_byte _ (guid_at_lt _ _), canonical]
  simp [hex2]

theorem canonical_length (g idx : List Nat) : (canonical g idx).length = 36 := by
  simp [canonical, hex2]

/-- The text `snprintf` stores when the capacity is at least 37: the 36
characters and the terminator, nothing cut off, with 36 reported. -/
theorem snprintf_canonical (s : List Char) (string_size : Nat) (g idx : List Nat)
    (h : 37 ≤ string_size) :
    libsystem_string_snprintf s string_size (canonical g idx)
      = (store_cells s 0 (canonical g idx ++ [NUL]), 36) := by
  have hl := canonical_length g idx
  have hz : string_size ≠ 0 := by omega
  have ht : (canonical g idx).take (string_size - 1) = canonical g idx :=
    List.take_of_length_le (by omega)
  simp [libsystem_string_snprintf, hz, ht, hl]

theorem print_count_ok (string_size : Nat) (h : 37 ≤ string_size) :
    ¬ ((36 : Int) < 0 ∨ (36 : Int).toNat > string_size) := by
  rintro (h0 | h0)
  · omega
  · have : (36 : Int).toNat = 36 := rfl
    omega

/-- A call in big-endian mode that passes the argument checks. -/
theorem guid_to_string_big (p : Platform) (g : List Nat) (guid_size : Nat) (s : List Char)
    (string_size : Nat) (h1 : 16 ≤ guid_size) (h2 : guid_size ≤ p.SSIZE_MAX)
    (h3 : 37 ≤ string_size) (h4 : string_size ≤ p.SSIZE_MAX) :
    guid_to_string p (some g) guid_size p.ENDIAN_BIG (some s) string_size
      = ⟨1, none, some g, some (store_cells s 0 (canonical g big_order ++ [NUL]))⟩ := by
  have e1 : ¬ guid_size < GUID_SIZE := by unfold GUID_SIZE; omega
  have e2 : ¬ guid_size > p.SSIZE_MAX := by omega
  have e3 : ¬ string_size < GUID_STRING_SIZE := by unfold GUID_STRING_SIZE; omega
  have e4 : ¬ string_size > p.SSIZE_MAX := by omega
  unfold guid_to_string
  simp only [e1, e2, e3, e4, if_false, if_true, ne_eq, not_true_eq_false, false_and]
  rw [format_text_guid, snprintf_canonical _ _ _ _ h3, if_neg (print_count_ok _ h3)]
  simp only [big_order]

/-- A call in little-endian mode that passes the argument checks. -/
theorem guid_to_string_little (p : Platform) (g : List Nat) (guid_size : Nat) (s : List Char)
    (string_size : Nat) (h1 : 16 ≤ guid_size) (h2 : guid_size ≤ p.SSIZE_MAX)
    (h3 : 37 ≤ string_size) (h4 : string_size ≤ p.SSIZE_MAX) :
    guid_to_string p (some g) guid_size p.ENDIAN_LITTLE (some s) string_size
      = ⟨1, none, some g, some (store_cells s 0 (canonical g little_order ++ [NUL]))⟩ := by
  have e1 : ¬ guid_size < GUID_SIZE := by unfold GUID_SIZE; omega
  have e2 : ¬ guid_size > p.SSIZE_MAX := by omega
  have e3 : ¬ string_size < GUID_STRING_SIZE := by unfold GUID_STRING_SIZE; omega
  have e4 : ¬ string_size > p.SSIZE_MAX := by omega
  have e6 : ¬ p.ENDIAN_LITTLE = p.ENDIAN_BIG := fun h => p.endian_distinct h.symm
  unfold guid_to_string
  simp only [e1, e2, e3, e4, e6, if_false, if_true, ne_eq, not_true_eq_false, and_false]
  rw [format_text_guid, snprintf_canonical _ _ _ _ h3, if_neg (print_count_ok _ h3)]
  simp only [little_order]

/-- The stored text in a buffer that has room for it. -/
theorem store_canonical (s : List Char) (g idx : List Nat) (h : 37 ≤ s.length) :
    store_cells s 0 (canonical g idx ++ [NUL]) = canonical g idx ++ [NUL] ++ s.drop 37 := by
  rw [store_cells_zero _ _ (by simp [canonical_length]; omega)]
  simp [canonical_length]

theorem canonical_big (g : List Nat) :
    canonical g big_order =
      hex2 (guid_at g 0) ++ hex2 (guid_at g 1) ++ hex2 (guid_at g 2) ++ hex2 (guid_at g 3) ++
      ['-'] ++ hex2 (guid_at g 4) ++ hex2 (guid_at g 5) ++
      ['-'] ++ hex2 (guid_at g 6) ++ hex2 (guid_at g 7) ++
      ['-'] ++ hex2 (guid_at g 8) ++ hex2 (guid_at g 9) ++
      ['-'] ++ hex2 (guid_at g 10) ++ hex2 (guid_at g 11) ++ hex2 (guid_at g 12) ++
      hex2 (guid_at g 13) ++ hex2 (guid_at g 14) ++ hex2 (guid_at g 15) := by
  simp [canonical, big_order]

theorem canonical_little (g : List Nat) :
    canonical g little_order =
      hex2 (guid_at g 3) ++ hex2 (guid_at g 2) ++ hex2 (guid_at g 1) ++ hex2 (guid_at g 0) ++
      ['-'] ++ hex2 (guid_at g 5) ++ hex2 (guid_at g 4) ++
      ['-'] ++ hex2 (guid_at g 7) ++ hex2 (guid_at g 6) ++
      ['-'] ++ hex2 (guid_at g 8) ++ hex2 (guid_at g 9) ++
      ['-'] ++ hex2 (guid_at g 10) ++ hex2 (guid_at g 11) ++ hex2 (guid_at g 12) ++
      hex2 (guid_at g 13) ++ hex2 (guid_at g 14) ++ hex2 (guid_at g 15) := by
  simp [canonical, little_order]

theorem hexdigit_mem (n : Nat) : hexdigit n ∈ lower_hex_chars := by
  by_cases h : n < 16
  · interval_cases n <;> decide
  · have : hexdigit n = '0' := by
      unfold hexdigit
      exact List.getD_eq_default _ _ (by simpa using Nat.le_of_not_lt h)
    rw [this]; decide

/-- The shape of the canonical text: hyphens at 8, 13, 18 and 23, lower-case
hexadecimal digits elsewhere. -/
theorem canonical_shape (g idx : List Nat) (i : Nat) (hi : i < 36) :
    ∃ c, (canonical g idx)[i]? = some c ∧
      (if i = 8 ∨ i = 13 ∨ i = 18 ∨ i = 23 then c = '-' else c ∈ lower_hex_chars) := by
  simp only [canonical, hex2, List.cons_append, List.nil_append, List.append_assoc]
  interval_cases i <;> simp [hexdigit_mem]

/-- The result of a call that passes the argument checks, for either byte
order. -/
theorem guid_to_string_valid (p : Platform) (g : List Nat) (guid_size : Nat) (byte_order : Int)
    (s : List Char) (string_size : Nat) (h1 : 16 ≤ guid_size) (h2 : guid_size ≤ p.SSIZE_MAX)
    (ho : byte_order = p.ENDIAN_BIG ∨ byte_order = p.ENDIAN_LITTLE)
    (h3 : 37 ≤ string_size) (h4 : string_size ≤ p.SSIZE_MAX) :
    guid_to_string p (some g) guid_size byte_order (some s) string_size =
      ⟨1, none, some g, some (store_cells s 0
        (canonical g (if byte_order = p.ENDIAN_BIG then big_order else little_order) ++ [NUL]))⟩ := by
  rcases ho with ho | ho
  · subst ho
    rw [guid_to_string_big p g guid_size s string_size h1 h2 h3 h4, if_pos rfl]
  · subst ho
    rw [guid_to_string_little p g guid_size s string_size h1 h2 h3 h4,
      if_neg (fun h => p.endian_distinct h.symm)]

/-- A call that fails one of the argument checks returns -1 with an error of
the argument domain and touches neither buffer. -/
theorem guid_to_string_invalid (p : Platform) (guid : Option (List Nat)) (guid_size : Nat)
    (byte_order : Int) (string : Option (List Char)) (string_size : Nat)
    (h : ¬ checks_pass p guid guid_size byte_order string string_size) :
    (guid_to_string p guid guid_size byte_order string string_size).ret = -1 ∧
    (guid_to_string p guid guid_size byte_order string string_size).string = string ∧
    (guid_to_string p guid guid_size byte_order string string_size).guid = guid ∧
    (guid_to_string p guid guid_size byte_order string string_size).error ≠ none ∧
    (guid_to_string p guid guid_size byte_order string string_size).error ≠
      some .RUNTIME_ERROR_SET_FAILED := by
  unfold guid_to_string
  cases guid with
  | none => simp
  | some g =>
    simp only []
    by_cases c1 : guid_size < GUID_SIZE
    · simp [c1]
    by_cases c2 : guid_size > p.SSIZE_MAX
    · simp [c1, c2]
    by_cases c3 : byte_order ≠ p.ENDIAN_BIG ∧ byte_order ≠ p.ENDIAN_LITTLE
    · simp [c1, c2, c3]
    rw [if_neg c1, if_neg c2, if_neg c3]
    cases string with
    | none => simp
    | some s =>
      simp only []
      by_cases c4 : string_size < GUID_STRING_SIZE
      · simp [c4]
      by_cases c5 : string_size > p.SSIZE_MAX
      · simp [c4, c5]
      exfalso
      apply h
      unfold GUID_SIZE at c1
      unfold GUID_STRING_SIZE at c4
      refine ⟨by simp, by omega, by omega, ?_, by simp, by omega, by omega⟩
      by_cases hb : byte_order = p.ENDIAN_BIG
      · exact Or.inl hb
      · by_cases hl : byte_order = p.ENDIAN_LITTLE
        · exact Or.inr hl
        · exact absurd ⟨hb, hl⟩ c3

/-- A call that passes the argument checks returns 1 without an error. -/
theorem guid_to_string_passes (p : Platform) (guid : Option (List Nat)) (guid_size : Nat)
    (byte_order : Int) (string : Option (List Char)) (string_size : Nat)
    (h : checks_pass p guid guid_size byte_order string string_size) :
    (guid_to_string p guid guid_size byte_order string string_size).ret = 1 ∧
    (guid_to_string p guid guid_size byte_order string string_size).error = none := by
  obtain ⟨hg, h1, h2, ho, hs, h3, h4⟩ := h
  cases guid with
  | none => exact absurd rfl hg
  | some g =>
    cases string with
    | none => exact absurd rfl hs
    | some s =>
      rw [guid_to_string_valid p g guid_size byte_order s string_size h1 h2 ho h3 h4]
      exact ⟨rfl, rfl⟩

theorem guid_at_take (g : List Nat) (i : Nat) (h : i < 16) :
    guid_at (g.take 16) i = guid_at g i := by
  unfold guid_at
  rw [List.getD_eq_getElem?_getD, List.getD_eq_getElem?_getD, List.getElem?_take_of_lt h]

/-- The canonical text in either order only reads the first 16 bytes. -/
theorem canonical_take (g : List Nat) (b : Bool) :
    canonical (g.take 16) (if b then big_order else little_order) =
      canonical g (if b then big_order else little_order) := by
  cases b <;>
    simp [canonical, big_order, little_order, guid_at_take]

theorem order_ite (p : Platform) (byte_order : Int) :
    (if byte_order = p.ENDIAN_BIG then big_order else little_order) =
      (if decide (byte_order = p.ENDIAN_BIG) = true then big_order else little_order) := by
  by_cases h : byte_order = p.ENDIAN_BIG <;> simp [h]

/-- The text stored for two identifiers with the same first 16 bytes. -/
theorem canonical_congr (p : Platform) (byte_order : Int) (g1 g2 : List Nat)
    (h : g1.take 16 = g2.take 16) :
    canonical g1 (if byte_order = p.ENDIAN_BIG then big_order else little_order) =
      canonical g2 (if byte_order = p.ENDIAN_BIG then big_order else little_order) := by
  rw [order_ite, ← canonical_take g1, ← canonical_take g2, h]

theorem format_length (g : List Nat) (i0 i1 i2 i3 i4 i5 i6 i7 i8 i9 i10 i11 i12 i13 i14 i15 : Nat) :
    (format_text GUID_FORMAT
      [guid_at g i0, guid_at g i1, guid_at g i2, guid_at g i3, guid_at g i4, guid_at g i5,
       guid_at g i6, guid_at g i7, guid_at g i8, guid_at g i9, guid_at g i10, guid_at g i11,
       guid_at g i12, guid_at g i13, guid_at g i14, guid_at g i15]).length = 36 := by
  rw [format_text_guid, canonical_length]

theorem getElem?_append_drop (pre g : List Nat) (i : Nat) (hp : pre.length = 8) (h : 8 ≤ i) :
    (pre ++ g.drop 8)[i]? = g[i]? := by
  have e : 8 + (i - 8) = i := by omega
  rw [List.getElem?_append_right (by omega), List.getElem?_drop, hp, e]

theorem guid_at_swap_fields_hi (g : List Nat) (i : Nat) (h : 8 ≤ i) :
    guid_at (swap_fields g) i = guid_at g i := by
  have e := getElem?_append_drop [g.getD 3 0, g.getD 2 0, g.getD 1 0, g.getD 0 0, g.getD 5 0,
    g.getD 4 0, g.getD 7 0, g.getD 6 0] g i rfl h
  unfold guid_at swap_fields
  rw [List.getD_eq_getElem?_getD, e, ← List.getD_eq_getElem?_getD]

theorem guid_at_swap_fields_lo (g : List Nat) :
    guid_at (swap_fields g) 0 = guid_at g 3 ∧ guid_at (swap_fields g) 1 = guid_at g 2 ∧
    guid_at (swap_fields g) 2 = guid_at g 1 ∧ guid_at (swap_fields g) 3 = guid_at g 0 ∧
    guid_at (swap_fields g) 4 = guid_at g 5 ∧ guid_at (swap_fields g) 5 = guid_at g 4 ∧
    guid_at (swap_fields g) 6 = guid_at g 7 ∧ guid_at (swap_fields g) 7 = guid_at g 6 := by
  simp [guid_at, swap_fields]

/-- Little-endian text of `g` is the big-endian text of `swap_fields g`. -/
theorem canonical_swap_fields (g : List Nat) :
    canonical (swap_fields g) big_order = canonical g little_order := by
  obtain ⟨h0, h1, h2, h3, h4, h5, h6, h7⟩ := guid_at_swap_fields_lo g
  rw [canonical_big, canonical_little, h0, h1, h2, h3, h4, h5, h6, h7,
    guid_at_swap_fields_hi g 8 (by decide), guid_at_swap_fields_hi g 9 (by decide),
    guid_at_swap_fields_hi g 10 (by decide), guid_at_swap_fields_hi g 11 (by decide),
    guid_at_swap_fields_hi g 12 (by decide), guid_at_swap_fields_hi g 13 (by decide),
    guid_at_swap_fields_hi g 14 (by decide), guid_at_swap_fields_hi g 15 (by decide)]

theorem hexdigit_inj : ∀ m, m < 16 → ∀ n, n < 16 → hexdigit m = hexdigit n → m = n := by
  decide

theorem hex2_inj (a b : Nat) (ha : a < 256) (hb : b < 256)
    (h1 : hexdigit (a / 16) = hexdigit (b / 16)) (h2 : hexdigit (a % 16) = hexdigit (b % 16)) :
    a = b := by
  have e1 := hexdigit_inj (a / 16) (by omega) (b / 16) (by omega) h1
  have e2 := hexdigit_inj (a % 16) (by omega) (b % 16) (by omega) h2
  omega

/-- Equal canonical texts come from equal bytes at each of the sixteen
indices. -/
theorem canonical_inj (g1 g2 : List Nat)
    (i0 i1 i2 i3 i4 i5 i6 i7 i8 i9 i10 i11 i12 i13 i14 i15 : Nat)
    (h : canonical g1 [i0, i1, i2, i3, i4, i5, i6, i7, i8, i9, i10, i11, i12, i13, i14, i15] =
      canonical g2 [i0, i1, i2, i3, i4, i5, i6, i7, i8, i9, i10, i11, i12, i13, i14, i15]) :
    ∀ i ∈ [i0, i1, i2, i3, i4, i5, i6, i7, i8, i9, i10, i11, i12, i13, i14, i15],
      guid_at g1 i = guid_at g2 i := by
  simp only [canonical, hex2, List.cons_append, List.nil_append, List.append_assoc] at h
  simp only [List.getD_cons_zero, List.getD_cons_succ] at h
  simp only [List.cons.injEq] at h
  obtain ⟨a0, b0, a1, b1, a2, b2, a3, b3, -, a4, b4, a5, b5, -, a6, b6, a7, b7, -, a8, b8, a9, b9,
    -, a10, b10, a11, b11, a12, b12, a13, b13, a14, b14, a15, b15, -⟩ := h
  have k := fun (x y : Nat) => hex2_inj (guid_at g1 x) (guid_at g2 y) (guid_at_lt _ _) (guid_at_lt _ _)
  intro i hi
  simp only [List.mem_cons, List.mem_singleton, List.not_mem_nil, or_false] at hi
  rcases hi with h | h | h | h | h | h | h | h | h | h | h | h | h | h | h | h <;> subst h
  · exact k _ _ a0 b0
  · exact k _ _ a1 b1
  · exact k _ _ a2 b2
  · exact k _ _ a3 b3
  · exact k _ _ a4 b4
  · exact k _ _ a5 b5
  · exact k _ _ a6 b6
  · exact k _ _ a7 b7
  · exact k _ _ a8 b8
  · exact k _ _ a9 b9
  · exact k _ _ a10 b10
  · exact k _ _ a11 b11
  · exact k _ _ a12 b12
  · exact k _ _ a13 b13
  · exact k _ _ a14 b14
  · exact k _ _ a15 b15

theorem guid_at_of_bytes (g : List Nat) (hb : is_bytes g) (i : Nat) (hi : i < g.length) :
    guid_at g i = g[i] := by
  unfold guid_at
  rw [List.getD_eq_getElem g 0 hi]
  exact Nat.mod_eq_of_lt (hb _ (List.getElem_mem _))

/-- Two 16-byte identifiers with the same byte at every index are equal. -/
theorem eq_of_guid_at (g1 g2 : List Nat) (hl1 : g1.length = 16) (hl2 : g2.length = 16)
    (hb1 : is_bytes g1) (hb2 : is_bytes g2) (h : ∀ i, i < 16 → guid_at g1 i = guid_at g2 i) :
    g1 = g2 := by
  apply List.ext_getElem (by rw [hl1, hl2])
  intro n h1 h2
  rw [← guid_at_of_bytes g1 hb1 n h1, ← guid_at_of_bytes g2 hb2 n h2]
  exact h n (by omega)

/-! ## Lemmas on `Nat.toDigits` in base 16 -/

theorem digitChar_eq_hexdigit : ∀ m, m < 16 → Nat.digitChar m = hexdigit m := by
  decide

theorem toDigitsCore_acc (fuel : Nat) :
    ∀ (n : Nat) (ds : List Char),
      Nat.toDigitsCore 16 fuel n ds = Nat.toDigitsCore 16 fuel n [] ++ ds := by
  induction fuel with
  | zero => intro n ds; rfl
  | succ f ih =>
    intro n ds
    unfold Nat.toDigitsCore
    by_cases h : n / 16 = 0
    · simp [h]
    · simp only [h, if_false]
      rw [ih (n / 16) (Nat.digitChar (n % 16) :: ds), ih (n / 16) [Nat.digitChar (n % 16)]]
      simp

theorem hex_fixed_zero (w : Nat) : hex_fixed w 0 = List.replicate w '0' := by
  induction w with
  | zero => rfl
  | succ w ih =>
    rw [hex_fixed, Nat.zero_div, ih, List.replicate_succ']
    rfl

/-- With enough fuel, the digits of a value below `16 ^ w` padded to `w`
characters are its last `w` hexadecimal digits. -/
theorem toDigitsCore_fixed (w : Nat) :
    ∀ (fuel n : Nat), n < fuel → n < 16 ^ (w + 1) →
      (Nat.toDigitsCore 16 fuel n []).length ≤ w + 1 ∧
      List.replicate (w + 1 - (Nat.toDigitsCore 16 fuel n []).length) '0' ++
        Nat.toDigitsCore 16 fuel n [] = hex_fixed (w + 1) n := by
  induction w with
  | zero =>
    intro fuel n hf hn
    obtain ⟨f, rfl⟩ : ∃ f, fuel = f + 1 := ⟨fuel - 1, by omega⟩
    have h0 : n / 16 = 0 := by omega
    have hm : n % 16 = n := by omega
    unfold Nat.toDigitsCore
    simp [h0, hex_fixed, hm, digitChar_eq_hexdigit n (by omega)]
  | succ w ih =>
    intro fuel n hf hn
    obtain ⟨f, rfl⟩ : ∃ f, fuel = f + 1 := ⟨fuel - 1, by omega⟩
    have hd : Nat.digitChar (n % 16) = hexdigit (n % 16) :=
      digitChar_eq_hexdigit _ (Nat.mod_lt _ (by decide))
    unfold Nat.toDigitsCore
    by_cases h0 : n / 16 = 0
    · simp only [h0, if_true, List.length_singleton]
      refine ⟨by omega, ?_⟩
      rw [hex_fixed, h0, hex_fixed_zero, hd]
      simp
    · simp only [h0, if_false]
      rw [toDigitsCore_acc]
      have hq : n / 16 < 16 ^ (w + 1) := by
        rw [Nat.div_lt_iff_lt_mul (by decide)]
        calc n < 16 ^ (w + 1 + 1) := hn
          _ = 16 ^ (w + 1) * 16 := by rw [Nat.pow_succ]
      obtain ⟨hl, he⟩ := ih f (n / 16) (by omega) hq
      refine ⟨by simp; omega, ?_⟩
      rw [hex_fixed, ← he, hd]
      simp only [List.length_append, List.length_singleton, List.append_assoc]
      congr 2
      omega

theorem printf_0x_fixed (w v : Nat) (h : v < 16 ^ (w + 1)) :
    printf_0x (w + 1) v = hex_fixed (w + 1) v :=
  (toDigitsCore_fixed w (v + 1) v (by omega) h).2

theorem hex_fixed_byte (w n b : Nat) (hb : b < 256) :
    hex_fixed (w + 2) (n * 256 + b) = hex_fixed w n ++ hex2 b := by
  have e1 : (n * 256 + b) / 16 / 16 = n := by omega
  have e2 : (n * 256 + b) / 16 % 16 = b / 16 := by omega
  have e3 : (n * 256 + b) % 16 = b % 16 := by omega
  rw [hex_fixed, hex_fixed, e1, e2, e3]
  simp [hex2]

theorem printf_0x_two (a b : Nat) (ha : a < 256) (hb : b < 256) :
    printf_0x 4 (decode_big [a, b]) = hex2 a ++ hex2 b := by
  have e : decode_big [a, b] = (0 * 256 + a) * 256 + b := rfl
  rw [e, printf_0x_fixed 3 _ (by norm_num; omega), hex_fixed_byte 2 _ b hb,
    hex_fixed_byte 0 _ a ha]
  rfl

theorem printf_0x_four (a b c d : Nat) (ha : a < 256) (hb : b < 256) (hc : c < 256)
    (hd : d < 256) :
    printf_0x 8 (decode_big [a, b, c, d]) = hex2 a ++ hex2 b ++ hex2 c ++ hex2 d := by
  have e : decode_big [a, b, c, d] = (((0 * 256 + a) * 256 + b) * 256 + c) * 256 + d := rfl
  rw [e, printf_0x_fixed 7 _ (by norm_num; omega), hex_fixed_byte 6 _ d hd,
    hex_fixed_byte 4 _ c hc, hex_fixed_byte 2 _ b hb, hex_fixed_byte 0 _ a ha]
  rfl

theorem printf_0x_six (a b c d e f : Nat) (ha : a < 256) (hb : b < 256) (hc : c < 256)
    (hd : d < 256) (he : e < 256) (hf : f < 256) :
    printf_0x 12 (decode_big [a, b, c, d, e, f]) =
      hex2 a ++ hex2 b ++ hex2 c ++ hex2 d ++ hex2 e ++ hex2 f := by
  have e0 : decode_big [a, b, c, d, e, f] =
      (((((0 * 256 + a) * 256 + b) * 256 + c) * 256 + d) * 256 + e) * 256 + f := rfl
  rw [e0, printf_0x_fixed 11 _ (by norm_num; omega), hex_fixed_byte 10 _ f hf,
    hex_fixed_byte 8 _ e he, hex_fixed_byte 6 _ d hd, hex_fixed_byte 4 _ c hc,
    hex_fixed_byte 2 _ b hb, hex_fixed_byte 0 _ a ha]
  rfl

/-- The field rendering is the canonical text of the selected order. -/
theorem field_text_eq (p : Platform) (byte_order : Int) (g : List Nat) :
    field_text p byte_order g =
      canonical g (if byte_order = p.ENDIAN_BIG then big_order else little_order) := by
  have l := guid_at_lt g
  have r4 : ∀ a b c d, decode_little [a, b, c, d] = decode_big [d, c, b, a] := fun _ _ _ _ => rfl
  have r2 : ∀ a b, decode_little [a, b] = decode_big [b, a] := fun _ _ => rfl
  unfold field_text
  by_cases hb : byte_order = p.ENDIAN_BIG
  · simp only [if_pos hb]
    rw [canonical_big, printf_0x_four _ _ _ _ (l 0) (l 1) (l 2) (l 3),
      printf_0x_two _ _ (l 4) (l 5), printf_0x_two _ _ (l 6) (l 7),
      printf_0x_two _ _ (l 8) (l 9),
      printf_0x_six _ _ _ _ _ _ (l 10) (l 11) (l 12) (l 13) (l 14) (l 15)]
    simp only [List.append_assoc]
  · simp only [if_neg hb]
    rw [canonical_little, r4, r2, r2, printf_0x_four _ _ _ _ (l 3) (l 2) (l 1) (l 0),
      printf_0x_two _ _ (l 5) (l 4), printf_0x_two _ _ (l 7) (l 6),
      printf_0x_two _ _ (l 8) (l 9),
      printf_0x_six _ _ _ _ _ _ (l 10) (l 11) (l 12) (l 13) (l 14) (l 15)]
    simp only [List.append_assoc]

/-! ## The claims on `guid_to_string` -/

/-- C1: a call of `guid_to_string` in big-endian mode that passes the argument
checks returns 1, records no error, and leaves in the output buffer the hex2
encodings of the bytes in storage order `[0,1,2,3]-[4,5]-[6,7]-[8,9]-[10..15]`,
then the terminator, then the cells the buffer held from index 37 on. -/
theorem C1_big_endian_output (p : Platform) (g : List Nat) (guid_size : Nat) (s : List Char)
    (string_size : Nat) (h1 : 16 ≤ guid_size) (h2 : guid_size ≤ p.SSIZE_MAX)
    (h3 : 37 ≤ string_size) (h4 : string_size ≤ p.SSIZE_MAX) (hs : string_size ≤ s.length) :
    guid_to_string p (some g) guid_size p.ENDIAN_BIG (some s) string_size =
      ⟨1, none, some g, some (
        hex2 (guid_at g 0) ++ hex2 (guid_at g 1) ++ hex2 (guid_at g 2) ++ hex2 (guid_at g 3) ++
        ['-'] ++ hex2 (guid_at g 4) ++ hex2 (guid_at g 5) ++
        ['-'] ++ hex2 (guid_at g 6) ++ hex2 (guid_at g 7) ++
        ['-'] ++ hex2 (guid_at g 8) ++ hex2 (guid_at g 9) ++
        ['-'] ++ hex2 (guid_at g 10) ++ hex2 (guid_at g 11) ++ hex2 (guid_at g 12) ++
        hex2 (guid_at g 13) ++ hex2 (guid_at g 14) ++ hex2 (guid_at g 15) ++
        [NUL] ++ s.drop 37)⟩ := by
  rw [guid_to_string_big p g guid_size s string_size h1 h2 h3 h4,
    store_canonical s g big_order (by omega), canonical_big]

/-- C1, the scenario of the specification: the bytes `01 02 .. 0f 10` in
big-endian mode give `01020304-0506-0708-090a-0b0c0d0e0f10`. -/
theorem C1_big_endian_output_witness :
    guid_to_string platform64 (some [1, 2, 3, 4, 5, 6, 7, 8, 9, 10, 11, 12, 13, 14, 15, 16]) 16
        98 (some (List.replicate 37 'z')) 37 =
      ⟨1, none, some [1, 2, 3, 4, 5, 6, 7, 8, 9, 10, 11, 12, 13, 14, 15, 16],
        some ("01020304-0506-0708-090a-0b0c0d0e0f10".toList ++ [NUL])⟩ := by
  have h := C1_big_endian_output platform64 [1, 2, 3, 4, 5, 6, 7, 8, 9, 10, 11, 12, 13, 14, 15, 16]
    16 (List.replicate 37 'z') 37 (by decide) (by decide) (by decide) (by decide) (by decide)
  rw [show (98 : Int) = platform64.ENDIAN_BIG from rfl, h]
  decide

/-- C2: a call of `guid_to_string` in little-endian mode that passes the
argument checks returns 1, records no error, and leaves in the output buffer
the hex2 encodings of the bytes in the order
`[3,2,1,0]-[5,4]-[7,6]-[8,9]-[10..15]`, then the terminator, then the cells the
buffer held from index 37 on. -/
theorem C2_little_endian_output (p : Platform) (g : List Nat) (guid_size : Nat)
    (s : List Char) (string_size : Nat) (h1 : 16 ≤ guid_size) (h2 : guid_size ≤ p.SSIZE_MAX)
    (h3 : 37 ≤ string_size) (h4 : string_size ≤ p.SSIZE_MAX) (hs : string_size ≤ s.length) :
    guid_to_string p (some g) guid_size p.ENDIAN_LITTLE (some s) string_size =
      ⟨1, none, some g, some (
        hex2 (guid_at g 3) ++ hex2 (guid_at g 2) ++ hex2 (guid_at g 1) ++ hex2 (guid_at g 0) ++
        ['-'] ++ hex2 (guid_at g 5) ++ hex2 (guid_at g 4) ++
        ['-'] ++ hex2 (guid_at g 7) ++ hex2 (guid_at g 6) ++
        ['-'] ++ hex2 (guid_at g 8) ++ hex2 (guid_at g 9) ++
        ['-'] ++ hex2 (guid_at g 10) ++ hex2 (guid_at g 11) ++ hex2 (guid_at g 12) ++
        hex2 (guid_at g 13) ++ hex2 (guid_at g 14) ++ hex2 (guid_at g 15) ++
        [NUL] ++ s.drop 37)⟩ := by
  rw [guid_to_string_little p g guid_size s string_size h1 h2 h3 h4,
    store_canonical s g little_order (by omega), canonical_little]

/-- C2, the scenario of the specification: the bytes `01 02 .. 0f 10` in
little-endian mode give `04030201-0605-0807-090a-0b0c0d0e0f10`. -/
theorem C2_little_endian_output_witness :
    guid_to_string platform64 (some [1, 2, 3, 4, 5, 6, 7, 8, 9, 10, 11, 12, 13, 14, 15, 16]) 16
        108 (some (List.replicate 37 'z')) 37 =
      ⟨1, none, some [1, 2, 3, 4, 5, 6, 7, 8, 9, 10, 11, 12, 13, 14, 15, 16],
        some ("04030201-0605-0807-090a-0b0c0d0e0f10".toList ++ [NUL])⟩ := by
  have h := C2_little_endian_output platform64
    [1, 2, 3, 4, 5, 6, 7, 8, 9, 10, 11, 12, 13, 14, 15, 16]
    16 (List.replicate 37 'z') 37 (by decide) (by decide) (by decide) (by decide) (by decide)
  rw [show (108 : Int) = platform64.ENDIAN_LITTLE from rfl, h]
  decide

/-- C3: with a valid input size, either byte order and an output buffer of
capacity exactly 37, `guid_to_string` returns 1 and the buffer then holds 37
cells: the terminator at index 36, `-` at indices 8, 13, 18 and 23, and a
character of `0-9a-f` at every other index below 36. -/
theorem C3_output_shape (p : Platform) (g : List Nat) (guid_size : Nat) (byte_order : Int)
    (s : List Char) (h1 : 16 ≤ guid_size) (h2 : guid_size ≤ p.SSIZE_MAX)
    (ho : byte_order = p.ENDIAN_BIG ∨ byte_order = p.ENDIAN_LITTLE) (hs : s.length = 37) :
    ∃ out, guid_to_string p (some g) guid_size byte_order (some s) 37 = ⟨1, none, some g, some out⟩ ∧
      out.length = 37 ∧ out[36]? = some NUL ∧
      ∀ i, i < 36 → ∃ c, out[i]? = some c ∧
        (if i = 8 ∨ i = 13 ∨ i = 18 ∨ i = 23 then c = '-' else c ∈ lower_hex_chars) := by
  have h4 : 37 ≤ p.SSIZE_MAX := le_trans (by decide) p.ssize_min
  refine ⟨_, guid_to_string_valid p g guid_size byte_order s 37 h1 h2 ho (le_refl _) h4, ?_, ?_, ?_⟩
  · rw [store_cells_length, hs]
  · rw [store_canonical s g _ (by omega), List.append_assoc,
      List.getElem?_append_right (by rw [canonical_length]), canonical_length]
    simp
  · intro i hi
    rw [store_canonical s g _ (by omega), List.append_assoc,
      List.getElem?_append_left (by rw [canonical_length]; exact hi)]
    exact canonical_shape g _ i hi

/-- C3 at the all-`ff` identifier in little-endian mode: the digits are
lower-case. -/
theorem C3_output_shape_witness :
    ∃ out, guid_to_string platform64 (some (List.replicate 16 255)) 16 108
        (some (List.replicate 37 'z')) 37 = ⟨1, none, some (List.replicate 16 255), some out⟩ ∧
      out.length = 37 ∧ out[36]? = some NUL ∧
      ∀ i, i < 36 → ∃ c, out[i]? = some c ∧
        (if i = 8 ∨ i = 13 ∨ i = 18 ∨ i = 23 then c = '-' else c ∈ lower_hex_chars) :=
  C3_output_shape platform64 (List.replicate 16 255) 16 108 (List.replicate 37 'z')
    (by decide) (by decide) (Or.inr rfl) (by decide)

/-- C5: `guid_to_string` reports the error of the first failing check, in the
order: input absent (invalid value), input size below 16 (value too small),
input size above `SSIZE_MAX` (value exceeds maximum), byte order neither big
nor little (unsupported value), output absent (invalid value), capacity below
37 (value too small), capacity above `SSIZE_MAX` (value exceeds maximum); when
none fails the call returns 1 without an error. -/
theorem C5_check_order (p : Platform) (g : List Nat) (guid_size : Nat) (byte_order : Int)
    (string : Option (List Char)) (s : List Char) (string_size : Nat) :
    ((guid_to_string p none guid_size byte_order string string_size).ret = -1 ∧
      (guid_to_string p none guid_size byte_order string string_size).error =
        some .ARGUMENT_ERROR_INVALID_VALUE) ∧
    (guid_size < 16 →
      (guid_to_string p (some g) guid_size byte_order string string_size).ret = -1 ∧
      (guid_to_string p (some g) guid_size byte_order string string_size).error =
        some .ARGUMENT_ERROR_VALUE_TOO_SMALL) ∧
    (16 ≤ guid_size → p.SSIZE_MAX < guid_size →
      (guid_to_string p (some g) guid_size byte_order string string_size).ret = -1 ∧
      (guid_to_string p (some g) guid_size byte_order string string_size).error =
        some .ARGUMENT_ERROR_VALUE_EXCEEDS_MAXIMUM) ∧
    (16 ≤ guid_size → guid_size ≤ p.SSIZE_MAX →
      byte_order ≠ p.ENDIAN_BIG → byte_order ≠ p.ENDIAN_LITTLE →
      (guid_to_string p (some g) guid_size byte_order string string_size).ret = -1 ∧
      (guid_to_string p (some g) guid_size byte_order string string_size).error =
        some .ARGUMENT_ERROR_UNSUPPORTED_VALUE) ∧
    (16 ≤ guid_size → guid_size ≤ p.SSIZE_MAX →
      byte_order = p.ENDIAN_BIG ∨ byte_order = p.ENDIAN_LITTLE →
      (guid_to_string p (some g) guid_size byte_order none string_size).ret = -1 ∧
      (guid_to_string p (some g) guid_size byte_order none string_size).error =
        some .ARGUMENT_ERROR_INVALID_VALUE) ∧
    (16 ≤ guid_size → guid_size ≤ p.SSIZE_MAX →
      byte_order = p.ENDIAN_BIG ∨ byte_order = p.ENDIAN_LITTLE → string_size < 37 →
      (guid_to_string p (some g) guid_size byte_order (some s) string_size).ret = -1 ∧
      (guid_to_string p (some g) guid_size byte_order (some s) string_size).error =
        some .ARGUMENT_ERROR_VALUE_TOO_SMALL) ∧
    (16 ≤ guid_size → guid_size ≤ p.SSIZE_MAX →
      byte_order = p.ENDIAN_BIG ∨ byte_order = p.ENDIAN_LITTLE →
      37 ≤ string_size → p.SSIZE_MAX < string_size →
      (guid_to_string p (some g) guid_size byte_order (some s) string_size).ret = -1 ∧
      (guid_to_string p (some g) guid_size byte_order (some s) string_size).error =
        some .ARGUMENT_ERROR_VALUE_EXCEEDS_MAXIMUM) ∧
    (16 ≤ guid_size → guid_size ≤ p.SSIZE_MAX →
      byte_order = p.ENDIAN_BIG ∨ byte_order = p.ENDIAN_LITTLE →
      37 ≤ string_size → string_size ≤ p.SSIZE_MAX →
      (guid_to_string p (some g) guid_size byte_order (some s) string_size).ret = 1 ∧
      (guid_to_string p (some g) guid_size byte_order (some s) string_size).error = none) := by
  refine ⟨by simp [guid_to_string], ?_, ?_, ?_, ?_, ?_, ?_, ?_⟩
  · intro h1
    have c1 : guid_size < GUID_SIZE := h1
    simp [guid_to_string, c1]
  · intro h1 h2
    have c1 : ¬ guid_size < GUID_SIZE := by unfold GUID_SIZE; omega
    simp [guid_to_string, c1, h2]
  · intro h1 h2 hb hl
    have c1 : ¬ guid_size < GUID_SIZE := by unfold GUID_SIZE; omega
    have c2 : ¬ guid_size > p.SSIZE_MAX := by omega
    simp [guid_to_string, c1, c2, hb, hl]
  · intro h1 h2 ho
    have c1 : ¬ guid_size < GUID_SIZE := by unfold GUID_SIZE; omega
    have c2 : ¬ guid_size > p.SSIZE_MAX := by omega
    have c3 : ¬ (byte_order ≠ p.ENDIAN_BIG ∧ byte_order ≠ p.ENDIAN_LITTLE) := by
      rintro ⟨hb, hl⟩; rcases ho with ho | ho
      · exact hb ho
      · exact hl ho
    unfold guid_to_string
    simp only [if_neg c1, if_neg c2, if_neg c3]
    simp
  · intro h1 h2 ho h3
    have c1 : ¬ guid_size < GUID_SIZE := by unfold GUID_SIZE; omega
    have c2 : ¬ guid_size > p.SSIZE_MAX := by omega
    have c3 : ¬ (byte_order ≠ p.ENDIAN_BIG ∧ byte_order ≠ p.ENDIAN_LITTLE) := by
      rintro ⟨hb, hl⟩; rcases ho with ho | ho
      · exact hb ho
      · exact hl ho
    have c4 : string_size < GUID_STRING_SIZE := h3
    unfold guid_to_string
    simp only [if_neg c1, if_neg c2, if_neg c3, if_pos c4]
    simp
  · intro h1 h2 ho h3 h4
    have c1 : ¬ guid_size < GUID_SIZE := by unfold GUID_SIZE; omega
    have c2 : ¬ guid_size > p.SSIZE_MAX := by omega
    have c3 : ¬ (byte_order ≠ p.ENDIAN_BIG ∧ byte_order ≠ p.ENDIAN_LITTLE) := by
      rintro ⟨hb, hl⟩; rcases ho with ho | ho
      · exact hb ho
      · exact hl ho
    have c4 : ¬ string_size < GUID_STRING_SIZE := by unfold GUID_STRING_SIZE; omega
    have c5 : string_size > p.SSIZE_MAX := h4
    unfold guid_to_string
    simp only [if_neg c1, if_neg c2, if_neg c3, if_neg c4, if_pos c5]
    simp
  · intro h1 h2 ho h3 h4
    exact guid_to_string_passes p (some g) guid_size byte_order (some s) string_size
      ⟨by simp, h1, h2, ho, by simp, h3, h4⟩

/-- C5 at the boundaries: an input of size 15 is too small, a capacity of 36 is
too small, and sizes 16 and 37 are accepted. -/
theorem C5_check_order_witness :
    (guid_to_string platform64 (some (List.replicate 15 0)) 15 98
        (some (List.replicate 37 'z')) 37).error = some .ARGUMENT_ERROR_VALUE_TOO_SMALL ∧
    (guid_to_string platform64 (some (List.replicate 16 0)) 16 98
        (some (List.replicate 36 'z')) 36).error = some .ARGUMENT_ERROR_VALUE_TOO_SMALL ∧
    (guid_to_string platform64 (some (List.replicate 16 0)) 16 98
        (some (List.replicate 37 'z')) 37).ret = 1 :=
  ⟨((C5_check_order platform64 (List.replicate 15 0) 15 98 (some (List.replicate 37 'z')) []
      37).2.1 (by decide)).2,
   ((C5_check_order platform64 (List.replicate 16 0) 16 98 none (List.replicate 36 'z')
      36).2.2.2.2.2.1 (by decide) (by decide) (Or.inl rfl) (by decide)).2,
   ((C5_check_order platform64 (List.replicate 16 0) 16 98 none (List.replicate 37 'z')
      37).2.2.2.2.2.2.2 (by decide) (by decide) (Or.inl rfl) (by decide) (by decide)).1⟩

/-- C7: two calls of `guid_to_string` that pass the argument checks with the
same byte order and the same first 16 input bytes return the same value and
error and store the same 37 cells (36 characters and the terminator), whatever
the declared sizes, the input past index 15 and the old output contents. -/
theorem C7_deterministic (p : Platform) (g1 g2 : List Nat) (guid_size1 guid_size2 : Nat)
    (byte_order : Int) (s1 s2 : List Char) (string_size1 string_size2 : Nat)
    (ha1 : 16 ≤ guid_size1) (ha2 : guid_size1 ≤ p.SSIZE_MAX)
    (hb1 : 16 ≤ guid_size2) (hb2 : guid_size2 ≤ p.SSIZE_MAX)
    (ho : byte_order = p.ENDIAN_BIG ∨ byte_order = p.ENDIAN_LITTLE)
    (ha3 : 37 ≤ string_size1) (ha4 : string_size1 ≤ p.SSIZE_MAX) (ha5 : string_size1 ≤ s1.length)
    (hb3 : 37 ≤ string_size2) (hb4 : string_size2 ≤ p.SSIZE_MAX) (hb5 : string_size2 ≤ s2.length)
    (hg : g1.take 16 = g2.take 16) :
    (guid_to_string p (some g1) guid_size1 byte_order (some s1) string_size1).ret =
      (guid_to_string p (some g2) guid_size2 byte_order (some s2) string_size2).ret ∧
    (guid_to_string p (some g1) guid_size1 byte_order (some s1) string_size1).error =
      (guid_to_string p (some g2) guid_size2 byte_order (some s2) string_size2).error ∧
    (guid_to_string p (some g1) guid_size1 byte_order (some s1) string_size1).string.map
        (List.take 37) =
      (guid_to_string p (some g2) guid_size2 byte_order (some s2) string_size2).string.map
        (List.take 37) := by
  rw [guid_to_string_valid p g1 guid_size1 byte_order s1 string_size1 ha1 ha2 ho ha3 ha4,
    guid_to_string_valid p g2 guid_size2 byte_order s2 string_size2 hb1 hb2 ho hb3 hb4,
    store_canonical s1 g1 _ (by omega), store_canonical s2 g2 _ (by omega),
    canonical_congr p byte_order g1 g2 hg]
  refine ⟨rfl, rfl, ?_⟩
  simp only [Option.map_some']
  rw [List.take_left' (by simp [canonical_length]), List.take_left' (by simp [canonical_length])]

/-- C7 on two calls that differ in everything but the first 16 bytes and the
byte order. -/
theorem C7_deterministic_witness :
    (guid_to_string platform64 (some (List.replicate 16 171)) 16 108
        (some (List.replicate 37 'z')) 37).string.map (List.take 37) =
      (guid_to_string platform64 (some (List.replicate 16 171 ++ [1, 2, 3])) 19 108
        (some (List.replicate 40 'y')) 40).string.map (List.take 37) :=
  (C7_deterministic platform64 (List.replicate 16 171) (List.replicate 16 171 ++ [1, 2, 3]) 16 19
    108 (List.replicate 37 'z') (List.replicate 40 'y') 37 40 (by decide) (by decide) (by decide)
    (by decide) (Or.inr rfl) (by decide) (by decide) (by decide) (by decide) (by decide)
    (by decide) (by decide)).2.2

/-- C8: a call of `guid_to_string` that does not return 1 leaves the output
buffer as it was; in particular, with a present input of valid size and a byte
order that is neither big nor little the call fails with the unsupported value
error and the output buffer is unmodified, whatever it is. -/
theorem C8_failure_leaves_output (p : Platform) (guid : Option (List Nat)) (guid_size : Nat)
    (byte_order : Int) (string : Option (List Char)) (string_size : Nat) :
    ((guid_to_string p guid guid_size byte_order string string_size).ret ≠ 1 →
      (guid_to_string p guid guid_size byte_order string string_size).string = string) ∧
    (guid ≠ none → 16 ≤ guid_size → guid_size ≤ p.SSIZE_MAX →
      byte_order ≠ p.ENDIAN_BIG → byte_order ≠ p.ENDIAN_LITTLE →
      (guid_to_string p guid guid_size byte_order string string_size).ret = -1 ∧
      (guid_to_string p guid guid_size byte_order string string_size).error =
        some .ARGUMENT_ERROR_UNSUPPORTED_VALUE ∧
      (guid_to_string p guid guid_size byte_order string string_size).string = string) := by
  constructor
  · intro hr
    by_cases hc : checks_pass p guid guid_size byte_order string string_size
    · exact absurd (guid_to_string_passes p guid guid_size byte_order string string_size hc).1 hr
    · exact (guid_to_string_invalid p guid guid_size byte_order string string_size hc).2.1
  · intro hg h1 h2 hb hl
    cases guid with
    | none => exact absurd rfl hg
    | some g =>
      have c1 : ¬ guid_size < GUID_SIZE := by unfold GUID_SIZE; omega
      have c2 : ¬ guid_size > p.SSIZE_MAX := by omega
      simp [guid_to_string, c1, c2, hb, hl]

/-- C8 on a call with the byte order 0: it fails and the output buffer is
unmodified. -/
theorem C8_failure_leaves_output_witness :
    (guid_to_string platform64 (some (List.replicate 16 7)) 16 0
        (some (List.replicate 37 'z')) 37).ret = -1 ∧
    (guid_to_string platform64 (some (List.replicate 16 7)) 16 0
        (some (List.replicate 37 'z')) 37).error = some .ARGUMENT_ERROR_UNSUPPORTED_VALUE ∧
    (guid_to_string platform64 (some (List.replicate 16 7)) 16 0
        (some (List.replicate 37 'z')) 37).string = some (List.replicate 37 'z') :=
  (C8_failure_leaves_output platform64 (some (List.replicate 16 7)) 16 0
    (some (List.replicate 37 'z')) 37).2 (by simp) (by decide) (by decide) (by decide) (by decide)

/-- C9: a call of `guid_to_string` that returns 1 on an output buffer holding
at least the declared capacity has written the cells 0..36 (the 36 characters
of the canonical text and the terminator at index 36), keeps every cell from
index 37 on and the length of the buffer, and leaves the input bytes as they
were. -/
theorem C9_success_frame (p : Platform) (g : List Nat) (guid_size : Nat) (byte_order : Int)
    (s : List Char) (string_size : Nat)
    (hr : (guid_to_string p (some g) guid_size byte_order (some s) string_size).ret = 1)
    (hs : string_size ≤ s.length) :
    37 ≤ string_size ∧
    (guid_to_string p (some g) guid_size byte_order (some s) string_size).guid = some g ∧
    ∃ out, (guid_to_string p (some g) guid_size byte_order (some s) string_size).string = some out ∧
      out.length = s.length ∧
      out.take 36 =
        canonical g (if byte_order = p.ENDIAN_BIG then big_order else little_order) ∧
      out[36]? = some NUL ∧
      ∀ i, 37 ≤ i → out[i]? = s[i]? := by
  have hc : checks_pass p (some g) guid_size byte_order (some s) string_size := by
    by_contra hc
    have := (guid_to_string_invalid p (some g) guid_size byte_order (some s) string_size hc).1
    rw [hr] at this
    exact absurd this (by decide)
  obtain ⟨-, h1, h2, ho, -, h3, h4⟩ := hc
  rw [guid_to_string_valid p g guid_size byte_order s string_size h1 h2 ho h3 h4]
  refine ⟨h3, rfl, _, rfl, ?_, ?_, ?_, ?_⟩
  · rw [store_cells_length]
  · rw [store_canonical s g _ (by omega), List.append_assoc,
      List.take_left' (canonical_length _ _)]
  · rw [store_canonical s g _ (by omega), List.append_assoc,
      List.getElem?_append_right (by rw [canonical_length]), canonical_length]
    simp
  · intro i hi
    have hl : (canonical g (if byte_order = p.ENDIAN_BIG then big_order else little_order) ++
        [NUL]).length = 37 := by
      rw [List.length_append, canonical_length]; rfl
    have hi2 : 37 + (i - 37) = i := by omega
    rw [store_canonical s g _ (by omega), List.getElem?_append_right (by rw [hl]; exact hi),
      List.getElem?_drop, hl, hi2]

/-- C9 on a buffer of 40 cells: the cells 37, 38 and 39 keep their `z`. -/
theorem C9_success_frame_witness :
    ∃ out, (guid_to_string platform64 (some (List.replicate 16 7)) 16 98
        (some (List.replicate 40 'z')) 40).string = some out ∧
      out.length = 40 ∧ out[36]? = some NUL ∧ out[37]? = some 'z' ∧ out[39]? = some 'z' := by
  obtain ⟨-, -, out, h1, h2, -, h4, h5⟩ :=
    C9_success_frame platform64 (List.replicate 16 7) 16 98 (List.replicate 40 'z') 40
      (by decide) (by decide)
  exact ⟨out, h1, by simpa using h2, h4, by simpa using h5 37 (by decide),
    by simpa using h5 39 (by decide)⟩

/-- C16: `guid_to_string` returns 1 exactly when the seven argument checks
pass, and never records the runtime error "unable to set string": for both
argument lists of the source the formatting step reports a count of 36, which
is neither negative nor above a capacity of at least 37. -/
theorem C16_set_failed_unreachable (p : Platform) (guid : Option (List Nat)) (guid_size : Nat)
    (byte_order : Int) (string : Option (List Char)) (string_size : Nat) :
    ((guid_to_string p guid guid_size byte_order string string_size).ret = 1 ↔
      checks_pass p guid guid_size byte_order string string_size) ∧
    (guid_to_string p guid guid_size byte_order string string_size).error ≠
      some .RUNTIME_ERROR_SET_FAILED ∧
    (∀ (g : List Nat) (s : List Char),
      (libsystem_string_snprintf s string_size
        (format_text GUID_FORMAT
          [guid_at g 0, guid_at g 1, guid_at g 2, guid_at g 3, guid_at g 4, guid_at g 5,
           guid_at g 6, guid_at g 7, guid_at g 8, guid_at g 9, guid_at g 10, guid_at g 11,
           guid_at g 12, guid_at g 13, guid_at g 14, guid_at g 15])).2 = 36 ∧
      (libsystem_string_snprintf s string_size
        (format_text GUID_FORMAT
          [guid_at g 3, guid_at g 2, guid_at g 1, guid_at g 0, guid_at g 5, guid_at g 4,
           guid_at g 7, guid_at g 6, guid_at g 8, guid_at g 9, guid_at g 10, guid_at g 11,
           guid_at g 12, guid_at g 13, guid_at g 14, guid_at g 15])).2 = 36) := by
  refine ⟨⟨?_, fun hc => (guid_to_string_passes p guid guid_size byte_order string string_size hc).1⟩,
    ?_, ?_⟩
  · intro hr
    by_contra hc
    have := (guid_to_string_invalid p guid guid_size byte_order string string_size hc).1
    rw [hr] at this
    exact absurd this (by decide)
  · by_cases hc : checks_pass p guid guid_size byte_order string string_size
    · rw [(guid_to_string_passes p guid guid_size byte_order string string_size hc).2]
      simp
    · exact (guid_to_string_invalid p guid guid_size byte_order string string_size hc).2.2.2.2
  · intro g s
    have hcount : ∀ text : List Char, text.length = 36 →
        (libsystem_string_snprintf s string_size text).2 = 36 := by
      intro text ht
      unfold libsystem_string_snprintf
      split <;> simp [ht]
    exact ⟨hcount _ (format_length g _ _ _ _ _ _ _ _ _ _ _ _ _ _ _ _),
      hcount _ (format_length g _ _ _ _ _ _ _ _ _ _ _ _ _ _ _ _)⟩

/-- C16 on a call that passes the seven checks: it returns 1. -/
theorem C16_set_failed_unreachable_witness :
    (guid_to_string platform64 (some (List.replicate 16 255)) 16 108
        (some (List.replicate 37 'z')) 37).ret = 1 :=
  (C16_set_failed_unreachable platform64 (some (List.replicate 16 255)) 16 108
    (some (List.replicate 37 'z')) 37).1.mpr
    ⟨by simp, by decide, by decide, Or.inr rfl, by simp, by decide, by decide⟩

/-- C6: for one identifier and valid sizes, the big-endian output `B` and the
little-endian output `L` of `guid_to_string` agree at every index from 18 on
and at the hyphens 8 and 13; `L[0..8)` is the four byte pairs of `B[0..8)`
reversed, `L[9..13)` and `L[14..18)` are the two byte pairs of `B[9..13)` and
`B[14..18)` swapped; and `L` is the big-endian output of the identifier with
bytes 0-3, 4-5 and 6-7 each reversed. -/
theorem C6_big_little_relation (p : Platform) (g : List Nat) (guid_size : Nat) (s : List Char)
    (string_size : Nat) (h1 : 16 ≤ guid_size) (h2 : guid_size ≤ p.SSIZE_MAX)
    (h3 : 37 ≤ string_size) (h4 : string_size ≤ p.SSIZE_MAX) (hs : string_size ≤ s.length) :
    ∃ B L,
      (guid_to_string p (some g) guid_size p.ENDIAN_BIG (some s) string_size).string = some B ∧
      (guid_to_string p (some g) guid_size p.ENDIAN_LITTLE (some s) string_size).string = some L ∧
      (∀ i, 18 ≤ i → L[i]? = B[i]?) ∧
      L[8]? = some '-' ∧ B[8]? = some '-' ∧ L[13]? = some '-' ∧ B[13]? = some '-' ∧
      L.take 8 = [B.getD 6 'x', B.getD 7 'x', B.getD 4 'x', B.getD 5 'x',
                  B.getD 2 'x', B.getD 3 'x', B.getD 0 'x', B.getD 1 'x'] ∧
      (L.drop 9).take 4 = [B.getD 11 'x', B.getD 12 'x', B.getD 9 'x', B.getD 10 'x'] ∧
      (L.drop 14).take 4 = [B.getD 16 'x', B.getD 17 'x', B.getD 14 'x', B.getD 15 'x'] ∧
      (guid_to_string p (some (swap_fields g)) guid_size p.ENDIAN_BIG (some s) string_size).string
        = some L := by
  rw [guid_to_string_big p g guid_size s string_size h1 h2 h3 h4,
    guid_to_string_little p g guid_size s string_size h1 h2 h3 h4,
    guid_to_string_big p (swap_fields g) guid_size s string_size h1 h2 h3 h4,
    store_canonical s g _ (by omega), store_canonical s g _ (by omega),
    store_canonical s _ _ (by omega), canonical_swap_fields]
  rw [canonical_big, canonical_little]
  simp only [hex2, List.cons_append, List.nil_append, List.append_assoc]
  refine ⟨_, _, rfl, rfl, ?_, ?_, ?_, ?_, ?_, ?_, ?_, ?_, rfl⟩
  · intro i hi
    have e : 18 + (i - 18) = i := by omega
    rw [← e, ← List.getElem?_drop, ← List.getElem?_drop]
    simp only [List.drop_succ_cons, List.drop_zero]
  all_goals simp

/-- C6 on the bytes `01 02 .. 0f 10`: the little-endian output is the
big-endian output of `04 03 02 01 06 05 08 07 09 .. 10`. -/
theorem C6_big_little_relation_witness :
    ∃ B L,
      (guid_to_string platform64 (some [1, 2, 3, 4, 5, 6, 7, 8, 9, 10, 11, 12, 13, 14, 15, 16]) 16
        98 (some (List.replicate 37 'z')) 37).string = some B ∧
      (guid_to_string platform64 (some [1, 2, 3, 4, 5, 6, 7, 8, 9, 10, 11, 12, 13, 14, 15, 16]) 16
        108 (some (List.replicate 37 'z')) 37).string = some L ∧
      (guid_to_string platform64 (some [4, 3, 2, 1, 6, 5, 8, 7, 9, 10, 11, 12, 13, 14, 15, 16]) 16
        98 (some (List.replicate 37 'z')) 37).string = some L := by
  obtain ⟨B, L, hB, hL, -, -, -, -, -, -, -, -, hsw⟩ :=
    C6_big_little_relation platform64 [1, 2, 3, 4, 5, 6, 7, 8, 9, 10, 11, 12, 13, 14, 15, 16] 16
      (List.replicate 37 'z') 37 (by decide) (by decide) (by decide) (by decide) (by decide)
  exact ⟨B, L, hB, hL, hsw⟩

/-- C17: for a fixed byte order, two 16-byte identifiers for which
`guid_to_string` stores the same 36 characters are equal byte for byte. -/
theorem C17_injective (p : Platform) (byte_order : Int) (g1 g2 : List Nat)
    (guid_size1 guid_size2 : Nat) (s1 s2 : List Char) (string_size1 string_size2 : Nat)
    (hl1 : g1.length = 16) (hl2 : g2.length = 16) (hb1 : is_bytes g1) (hb2 : is_bytes g2)
    (ha1 : 16 ≤ guid_size1) (ha2 : guid_size1 ≤ p.SSIZE_MAX)
    (hc1 : 16 ≤ guid_size2) (hc2 : guid_size2 ≤ p.SSIZE_MAX)
    (ho : byte_order = p.ENDIAN_BIG ∨ byte_order = p.ENDIAN_LITTLE)
    (ha3 : 37 ≤ string_size1) (ha4 : string_size1 ≤ p.SSIZE_MAX) (ha5 : string_size1 ≤ s1.length)
    (hc3 : 37 ≤ string_size2) (hc4 : string_size2 ≤ p.SSIZE_MAX) (hc5 : string_size2 ≤ s2.length)
    (heq : (guid_to_string p (some g1) guid_size1 byte_order (some s1) string_size1).string.map
        (List.take 36) =
      (guid_to_string p (some g2) guid_size2 byte_order (some s2) string_size2).string.map
        (List.take 36)) :
    g1 = g2 := by
  rw [guid_to_string_valid p g1 guid_size1 byte_order s1 string_size1 ha1 ha2 ho ha3 ha4,
    guid_to_string_valid p g2 guid_size2 byte_order s2 string_size2 hc1 hc2 ho hc3 hc4,
    store_canonical s1 g1 _ (by omega), store_canonical s2 g2 _ (by omega)] at heq
  simp only [Option.map_some', Option.some.injEq, List.append_assoc] at heq
  rw [List.take_left' (canonical_length _ _), List.take_left' (canonical_length _ _)] at heq
  apply eq_of_guid_at g1 g2 hl1 hl2 hb1 hb2
  intro i hi
  by_cases hb : byte_order = p.ENDIAN_BIG
  · rw [if_pos hb, big_order] at heq
    apply canonical_inj g1 g2 _ _ _ _ _ _ _ _ _ _ _ _ _ _ _ _ heq
    interval_cases i <;> simp
  · rw [if_neg hb, little_order] at heq
    apply canonical_inj g1 g2 _ _ _ _ _ _ _ _ _ _ _ _ _ _ _ _ heq
    interval_cases i <;> simp

/-- C17 at two concrete identifiers: had the two calls stored the same text,
the identifiers would be the same. -/
theorem C17_injective_witness :
    (guid_to_string platform64 (some (List.replicate 16 1)) 16 98
        (some (List.replicate 37 'z')) 37).string.map (List.take 36) =
      (guid_to_string platform64 (some (List.replicate 16 1)) 16 98
        (some (List.replicate 38 'y')) 38).string.map (List.take 36) ∧
    List.replicate 16 1 = List.replicate 16 1 :=
  ⟨by decide,
   C17_injective platform64 98 (List.replicate 16 1) (List.replicate 16 1) 16 16
    (List.replicate 37 'z') (List.replicate 38 'y') 37 38 (by decide) (by decide) (by decide)
    (by decide) (by decide) (by decide) (by decide) (by decide) (Or.inl rfl) (by decide)
    (by decide) (by decide) (by decide) (by decide) (by decide) (by decide)⟩

/-- C4: for a call of `guid_to_string` that passes the argument checks, the 36
characters stored are the rendering `"%08x-%04x-%04x-%04x-%012x"` of the five
field values: bytes 0-3, 4-5 and 6-7 decoded with the selected byte order,
bytes 8-9 and 10-15 decoded big-endian. -/
theorem C4_field_rendering (p : Platform) (g : List Nat) (guid_size : Nat) (byte_order : Int)
    (s : List Char) (string_size : Nat) (h1 : 16 ≤ guid_size) (h2 : guid_size ≤ p.SSIZE_MAX)
    (ho : byte_order = p.ENDIAN_BIG ∨ byte_order = p.ENDIAN_LITTLE)
    (h3 : 37 ≤ string_size) (h4 : string_size ≤ p.SSIZE_MAX) (hs : string_size ≤ s.length) :
    (guid_to_string p (some g) guid_size byte_order (some s) string_size).string.map
      (List.take 36) = some (field_text p byte_order g) := by
  rw [guid_to_string_valid p g guid_size byte_order s string_size h1 h2 ho h3 h4,
    store_canonical s g _ (by omega), field_text_eq]
  simp only [Option.map_some', List.append_assoc]
  rw [List.take_left' (canonical_length _ _)]

/-- C4 on the bytes `01 02 .. 0f 10` in little-endian mode: the fields are
`0x04030201`, `0x0605`, `0x0807`, `0x090a` and `0x0b0c0d0e0f10`. -/
theorem C4_field_rendering_witness :
    (guid_to_string platform64 (some [1, 2, 3, 4, 5, 6, 7, 8, 9, 10, 11, 12, 13, 14, 15, 16]) 16
        108 (some (List.replicate 37 'z')) 37).string.map (List.take 36) =
      some (printf_0x 8 0x04030201 ++ ['-'] ++ printf_0x 4 0x0605 ++ ['-'] ++
        printf_0x 4 0x0807 ++ ['-'] ++ printf_0x 4 0x090a ++ ['-'] ++
        printf_0x 12 0x0b0c0d0e0f10) :=
  C4_field_rendering platform64 [1, 2, 3, 4, 5, 6, 7, 8, 9, 10, 11, 12, 13, 14, 15, 16] 16 108
    (List.replicate 37 'z') 37 (by decide) (by decide) (Or.inr rfl) (by decide) (by decide)
    (by decide)

/-! ## Lemmas on `guid_generate` -/

/-- A call that fails one of the argument checks returns -1 with an error,
leaves the buffer as it was and calls no host primitive. -/
theorem guid_generate_invalid (b : Build) (p : Platform) (h : Host) (guid : Option (List Nat))
    (guid_size guid_type : Nat) (hc : ¬ generate_checks_pass p guid guid_size guid_type) :
    (guid_generate b p h guid guid_size guid_type).ret = -1 ∧
    (guid_generate b p h guid guid_size guid_type).guid = guid ∧
    (guid_generate b p h guid guid_size guid_type).calls = [] ∧
    (guid_generate b p h guid guid_size guid_type).error ≠ none := by
  unfold guid_generate
  cases guid with
  | none => simp
  | some g =>
    simp only []
    by_cases c1 : guid_size < GUID_SIZE
    · simp [c1]
    by_cases c2 : guid_size > p.SSIZE_MAX
    · simp [c1, c2]
    by_cases c3 : guid_type ≠ p.GUID_TYPE_RANDOM ∧ guid_type ≠ p.GUID_TYPE_TIME
    · simp [c1, c2, c3]
    exfalso
    apply hc
    unfold GUID_SIZE at c1
    refine ⟨by simp, by omega, by omega, ?_⟩
    by_cases hr : guid_type = p.GUID_TYPE_RANDOM
    · exact Or.inl hr
    · by_cases ht : guid_type = p.GUID_TYPE_TIME
      · exact Or.inr ht
      · exact absurd ⟨hr, ht⟩ c3

/-- A call of the random kind that passes the argument checks. -/
theorem guid_generate_random (b : Build) (p : Platform) (h : Host) (g : List Nat)
    (guid_size : Nat) (h1 : 16 ≤ guid_size) (h2 : guid_size ≤ p.SSIZE_MAX) :
    guid_generate b p h (some g) guid_size p.GUID_TYPE_RANDOM =
      ⟨1, none,
        some (if b.WINAPI then store_uuid g h.UuidCreate
          else if b.HAVE_UUID_GENERATE_RANDOM then
            store_cells g 0 (uuid_t_bytes h.uuid_generate_random)
          else g),
        if b.WINAPI then [.UuidCreate]
        else if b.HAVE_UUID_GENERATE_RANDOM then [.uuid_generate_random] else []⟩ := by
  have c1 : ¬ guid_size < GUID_SIZE := by unfold GUID_SIZE; omega
  have c2 : ¬ guid_size > p.SSIZE_MAX := by omega
  have c3 : ¬ p.GUID_TYPE_RANDOM = p.GUID_TYPE_TIME := p.type_distinct
  unfold guid_generate generate_random
  simp only [if_neg c1, if_neg c2, if_neg c3, ne_eq, not_true_eq_false, false_and, if_false,
    if_true]
  cases b.WINAPI <;> cases b.HAVE_UUID_GENERATE_RANDOM <;> simp

/-- A call of the time-based kind that passes the argument checks. -/
theorem guid_generate_time (b : Build) (p : Platform) (h : Host) (g : List Nat)
    (guid_size : Nat) (h1 : 16 ≤ guid_size) (h2 : guid_size ≤ p.SSIZE_MAX) :
    guid_generate b p h (some g) guid_size p.GUID_TYPE_TIME =
      ⟨1, none,
        some (if b.WINAPI then store_uuid g h.UuidCreateSequential
          else if b.HAVE_UUID_GENERATE_TIME then
            store_cells g 0 (uuid_t_bytes h.uuid_generate_time)
          else g),
        if b.WINAPI then [.UuidCreateSequential]
        else if b.HAVE_UUID_GENERATE_TIME then [.uuid_generate_time] else []⟩ := by
  have c1 : ¬ guid_size < GUID_SIZE := by unfold GUID_SIZE; omega
  have c2 : ¬ guid_size > p.SSIZE_MAX := by omega
  have c3 : ¬ p.GUID_TYPE_TIME = p.GUID_TYPE_RANDOM := fun e => p.type_distinct e.symm
  unfold guid_generate generate_time
  simp only [if_neg c1, if_neg c2, if_neg c3, ne_eq, not_true_eq_false, and_false, if_false,
    if_true]
  cases b.WINAPI <;> cases b.HAVE_UUID_GENERATE_TIME <;> simp

theorem uuid_t_bytes_length (out : List Nat) : (uuid_t_bytes out).length = 16 := by
  simp [uuid_t_bytes]

/-- The serialisation of a record overwrites the first 16 cells with the flat
layout. -/
theorem store_uuid_eq (g : List Nat) (u : UUID) (hl : 16 ≤ g.length) :
    store_uuid g u = encode_record_as_bytes u ++ g.drop 16 := by
  rcases g with _ | ⟨a0, _ | ⟨a1, _ | ⟨a2, _ | ⟨a3, _ | ⟨a4, _ | ⟨a5, _ | ⟨a6, _ | ⟨a7,
    _ | ⟨a8, _ | ⟨a9, _ | ⟨a10, _ | ⟨a11, _ | ⟨a12, _ | ⟨a13, _ | ⟨a14, _ | ⟨a15, rest⟩⟩⟩⟩⟩⟩⟩⟩⟩⟩⟩⟩⟩⟩⟩⟩
  all_goals first
    | (simp only [List.length_cons, List.length_nil] at hl; omega)
    | simp [store_uuid, endian_little_revert_32bit, endian_little_revert_16bit,
        encode_record_as_bytes]

/-- No store of the serialisation reaches a cell from index 16 on. -/
theorem store_uuid_frame (g : List Nat) (u : UUID) (i : Nat) (hi : 16 ≤ i) :
    (store_uuid g u)[i]? = g[i]? := by
  unfold store_uuid endian_little_revert_32bit endian_little_revert_16bit
  simp only [Nat.zero_add, Nat.reduceAdd]
  repeat rw [List.getElem?_set_ne (by omega)]

theorem store_uuid_length (g : List Nat) (u : UUID) : (store_uuid g u).length = g.length := by
  simp [store_uuid, endian_little_revert_32bit, endian_little_revert_16bit]

/-- The 16 bytes of a `uuid_t` never reach a cell from index 16 on. -/
theorem store_uuid_t_frame (g out : List Nat) (i : Nat) (hi : 16 ≤ i) :
    (store_cells g 0 (uuid_t_bytes out))[i]? = g[i]? := by
  rw [store_cells_getElem?, uuid_t_bytes_length]
  have : ¬ (0 ≤ i ∧ i < 0 + 16 ∧ i < g.length) := by omega
  rw [if_neg this]

theorem getD_lt_of_bytes (d : List Nat) (hb : ∀ b ∈ d, b < 256) (k : Nat) : d.getD k 0 < 256 := by
  by_cases hk : k < d.length
  · rw [List.getD_eq_getElem d 0 hk]
    exact hb _ (List.getElem_mem _)
  · rw [List.getD_eq_default d 0 (Nat.le_of_not_lt hk)]
    decide

/-- Decoding the flat layout of a well-formed record gives the record back. -/
theorem decode_encode (u : UUID) (hw : u.well_formed) (rest : List Nat) :
    decode_record (encode_record_as_bytes u ++ rest) = u := by
  obtain ⟨d1, d2, d3, d4⟩ := u
  obtain ⟨h1, h2, h3, h4, h5⟩ := hw
  simp only at h1 h2 h3 h4 h5
  have e1 : decode_little [d1 % 256, d1 / 256 % 256, d1 / 65536 % 256, d1 / 16777216 % 256] = d1 := by
    show (((0 * 256 + d1 / 16777216 % 256) * 256 + d1 / 65536 % 256) * 256 + d1 / 256 % 256) * 256
      + d1 % 256 = d1
    omega
  have e2 : decode_little [d2 % 256, d2 / 256 % 256] = d2 := by
    show (0 * 256 + d2 / 256 % 256) * 256 + d2 % 256 = d2
    omega
  have e3 : decode_little [d3 % 256, d3 / 256 % 256] = d3 := by
    show (0 * 256 + d3 / 256 % 256) * 256 + d3 % 256 = d3
    omega
  have e4 : [d4.getD 0 0 % 256, d4.getD 1 0 % 256, d4.getD 2 0 % 256, d4.getD 3 0 % 256,
      d4.getD 4 0 % 256, d4.getD 5 0 % 256, d4.getD 6 0 % 256, d4.getD 7 0 % 256] = d4 := by
    rcases d4 with _ | ⟨b0, _ | ⟨b1, _ | ⟨b2, _ | ⟨b3, _ | ⟨b4, _ | ⟨b5, _ | ⟨b6, _ | ⟨b7, _ | ⟨b8, t⟩⟩⟩⟩⟩⟩⟩⟩⟩
    all_goals first
      | (simp only [List.length_cons, List.length_nil] at h4; omega)
      | skip
    simp only [List.mem_cons, List.mem_singleton, List.not_mem_nil, or_false, forall_eq_or_imp,
      forall_eq] at h5
    obtain ⟨k0, k1, k2, k3, k4, k5, k6, k7⟩ := h5
    simp [Nat.mod_eq_of_lt, k0, k1, k2, k3, k4, k5, k6, k7]
  simp only [decode_record, encode_record_as_bytes, List.cons_append, List.nil_append,
    List.take_succ_cons, List.take_zero, List.drop_succ_cons, List.drop_zero]
  rw [e1, e2, e3, e4]

/-- The little-endian text of the flat layout of a well-formed record is the
canonical string of the record. -/
theorem record_text_eq (u : UUID) (hw : u.well_formed) (rest : List Nat) :
    canonical (encode_record_as_bytes u ++ rest) little_order = record_text u := by
  obtain ⟨h1, h2, h3, -, h5⟩ := hw
  have l := getD_lt_of_bytes u.Data4 h5
  have b1 : u.Data1 = decode_big [u.Data1 / 16777216 % 256, u.Data1 / 65536 % 256,
      u.Data1 / 256 % 256, u.Data1 % 256] := by
    show u.Data1 = (((0 * 256 + u.Data1 / 16777216 % 256) * 256 + u.Data1 / 65536 % 256) * 256 +
      u.Data1 / 256 % 256) * 256 + u.Data1 % 256
    omega
  have b2 : u.Data2 = decode_big [u.Data2 / 256 % 256, u.Data2 % 256] := by
    show u.Data2 = (0 * 256 + u.Data2 / 256 % 256) * 256 + u.Data2 % 256
    omega
  have b3 : u.Data3 = decode_big [u.Data3 / 256 % 256, u.Data3 % 256] := by
    show u.Data3 = (0 * 256 + u.Data3 / 256 % 256) * 256 + u.Data3 % 256
    omega
  have m : ∀ x, x % 256 < 256 := fun x => Nat.mod_lt _ (by decide)
  unfold record_text
  rw [b1, b2, b3, printf_0x_four _ _ _ _ (m _) (m _) (m _) (m _), printf_0x_two _ _ (m _) (m _),
    printf_0x_two _ _ (m _) (m _), canonical_little]
  simp only [guid_at, encode_record_as_bytes, List.cons_append, List.nil_append,
    List.getD_cons_zero, List.getD_cons_succ, Nat.mod_mod, Nat.mod_eq_of_lt (l _),
    List.append_assoc]

theorem record_text_length (u : UUID) (hw : u.well_formed) : (record_text u).length = 36 := by
  rw [← record_text_eq u hw []]
  exact canonical_length _ _

/-- The buffer a WINAPI build leaves after a call that passes the argument
checks. -/
theorem guid_generate_winapi (b : Build) (p : Platform) (h : Host) (g : List Nat)
    (guid_size guid_type : Nat) (hw : b.WINAPI = true) (h1 : 16 ≤ guid_size)
    (h2 : guid_size ≤ p.SSIZE_MAX)
    (hk : guid_type = p.GUID_TYPE_RANDOM ∨ guid_type = p.GUID_TYPE_TIME) :
    guid_generate b p h (some g) guid_size guid_type =
      ⟨1, none, some (store_uuid g (h.record p guid_type)),
        [if guid_type = p.GUID_TYPE_RANDOM then .UuidCreate else .UuidCreateSequential]⟩ := by
  rcases hk with hk | hk
  · rw [hk, guid_generate_random b p h g guid_size h1 h2]
    simp [hw, Host.record]
  · have c3 : ¬ p.GUID_TYPE_TIME = p.GUID_TYPE_RANDOM := fun e => p.type_distinct e.symm
    rw [hk, guid_generate_time b p h g guid_size h1 h2]
    simp [hw, Host.record, c3]

/-! ## The claims on `guid_generate` -/

/-- C10: in a build that compiles `guid_generate` with `uuid_generate_time` and
without `uuid_generate_random`, a call of the random kind on a present 16-byte
buffer returns 1, calls no host primitive and leaves the buffer as it was,
while the time-based kind of the same build stores the host identifier. -/
theorem C10_random_primitive_missing :
    build_time_only.has_guid_generate = true ∧
    guid_generate build_time_only platform64 host_example (some (List.replicate 16 0)) 16
        platform64.GUID_TYPE_RANDOM = ⟨1, none, some (List.replicate 16 0), []⟩ ∧
    guid_generate build_time_only platform64 host_example (some (List.replicate 16 0)) 16
        platform64.GUID_TYPE_TIME =
      ⟨1, none, some (List.replicate 16 0x22), [.uuid_generate_time]⟩ := by
  decide

/-- C11: `guid_generate` fails with the invalid value error for an absent
buffer, otherwise with value too small for a size below 16, otherwise with
value exceeds maximum for a size above `SSIZE_MAX`, otherwise with unsupported
value for a kind that is neither random nor time-based; and it returns 1
exactly when none of these checks fails. -/
theorem C11_generate_check_order (b : Build) (p : Platform) (h : Host) (g : List Nat)
    (guid : Option (List Nat)) (guid_size guid_type : Nat) :
    ((guid_generate b p h none guid_size guid_type).ret = -1 ∧
      (guid_generate b p h none guid_size guid_type).error =
        some .ARGUMENT_ERROR_INVALID_VALUE) ∧
    (guid_size < 16 →
      (guid_generate b p h (some g) guid_size guid_type).ret = -1 ∧
      (guid_generate b p h (some g) guid_size guid_type).error =
        some .ARGUMENT_ERROR_VALUE_TOO_SMALL) ∧
    (16 ≤ guid_size → p.SSIZE_MAX < guid_size →
      (guid_generate b p h (some g) guid_size guid_type).ret = -1 ∧
      (guid_generate b p h (some g) guid_size guid_type).error =
        some .ARGUMENT_ERROR_VALUE_EXCEEDS_MAXIMUM) ∧
    (16 ≤ guid_size → guid_size ≤ p.SSIZE_MAX →
      guid_type ≠ p.GUID_TYPE_RANDOM → guid_type ≠ p.GUID_TYPE_TIME →
      (guid_generate b p h (some g) guid_size guid_type).ret = -1 ∧
      (guid_generate b p h (some g) guid_size guid_type).error =
        some .ARGUMENT_ERROR_UNSUPPORTED_VALUE) ∧
    ((guid_generate b p h guid guid_size guid_type).ret = 1 ↔
      (guid ≠ none ∧ 16 ≤ guid_size ∧ guid_size ≤ p.SSIZE_MAX ∧
        (guid_type = p.GUID_TYPE_RANDOM ∨ guid_type = p.GUID_TYPE_TIME))) ∧
    ((guid_generate b p h guid guid_size guid_type).ret = 1 ∨
      (guid_generate b p h guid guid_size guid_type).ret = -1) := by
  have hpass : generate_checks_pass p guid guid_size guid_type →
      (guid_generate b p h guid guid_size guid_type).ret = 1 := by
    rintro ⟨hg, h1, h2, hk⟩
    cases guid with
    | none => exact absurd rfl hg
    | some g0 =>
      rcases hk with hk | hk
      · rw [hk, guid_generate_random b p h g0 guid_size h1 h2]
      · rw [hk, guid_generate_time b p h g0 guid_size h1 h2]
  refine ⟨by simp [guid_generate], ?_, ?_, ?_, ⟨?_, hpass⟩, ?_⟩
  · intro h1
    have c1 : guid_size < GUID_SIZE := h1
    simp [guid_generate, c1]
  · intro h1 h2
    have c1 : ¬ guid_size < GUID_SIZE := by unfold GUID_SIZE; omega
    simp [guid_generate, c1, h2]
  · intro h1 h2 hr ht
    have c1 : ¬ guid_size < GUID_SIZE := by unfold GUID_SIZE; omega
    have c2 : ¬ guid_size > p.SSIZE_MAX := by omega
    simp [guid_generate, c1, c2, hr, ht]
  · intro hr
    by_contra hc
    have := (guid_generate_invalid b p h guid guid_size guid_type hc).1
    rw [hr] at this
    exact absurd this (by decide)
  · by_cases hc : generate_checks_pass p guid guid_size guid_type
    · exact Or.inl (hpass hc)
    · exact Or.inr (guid_generate_invalid b p h guid guid_size guid_type hc).1

/-- C11 at the boundaries: a size of 15 is too small, an unknown kind is
unsupported, and a 16-byte buffer with the random kind is accepted. -/
theorem C11_generate_check_order_witness :
    (guid_generate build_time_only platform64 host_example (some (List.replicate 15 0)) 15
        1).error = some .ARGUMENT_ERROR_VALUE_TOO_SMALL ∧
    (guid_generate build_time_only platform64 host_example (some (List.replicate 16 0)) 16
        3).error = some .ARGUMENT_ERROR_UNSUPPORTED_VALUE ∧
    (guid_generate build_time_only platform64 host_example (some (List.replicate 16 0)) 16
        1).ret = 1 :=
  ⟨((C11_generate_check_order build_time_only platform64 host_example (List.replicate 15 0) none
      15 1).2.1 (by decide)).2,
   ((C11_generate_check_order build_time_only platform64 host_example (List.replicate 16 0) none
      16 3).2.2.2.1 (by decide) (by decide) (by decide) (by decide)).2,
   (C11_generate_check_order build_time_only platform64 host_example []
      (some (List.replicate 16 0)) 16 1).2.2.2.2.1.mpr
      ⟨by simp, by decide, by decide, Or.inl rfl⟩⟩

/-- C12: a call of `guid_generate` that does not return 1 leaves the buffer
byte for byte as it was and has called no host primitive; in particular, with
a present buffer of valid size and a kind that is neither random nor
time-based the call fails with the unsupported value error and the buffer is
unmodified. -/
theorem C12_generate_failure_frame (b : Build) (p : Platform) (h : Host)
    (guid : Option (List Nat)) (guid_size guid_type : Nat) :
    ((guid_generate b p h guid guid_size guid_type).ret ≠ 1 →
      (guid_generate b p h guid guid_size guid_type).guid = guid ∧
      (guid_generate b p h guid guid_size guid_type).calls = []) ∧
    (guid ≠ none → 16 ≤ guid_size → guid_size ≤ p.SSIZE_MAX →
      guid_type ≠ p.GUID_TYPE_RANDOM → guid_type ≠ p.GUID_TYPE_TIME →
      (guid_generate b p h guid guid_size guid_type).ret = -1 ∧
      (guid_generate b p h guid guid_size guid_type).error =
        some .ARGUMENT_ERROR_UNSUPPORTED_VALUE ∧
      (guid_generate b p h guid guid_size guid_type).guid = guid ∧
      (guid_generate b p h guid guid_size guid_type).calls = []) := by
  constructor
  · intro hr
    by_cases hc : generate_checks_pass p guid guid_size guid_type
    · exfalso
      apply hr
      obtain ⟨hg, h1, h2, hk⟩ := hc
      cases guid with
      | none => exact absurd rfl hg
      | some g0 =>
        rcases hk with hk | hk
        · rw [hk, guid_generate_random b p h g0 guid_size h1 h2]
        · rw [hk, guid_generate_time b p h g0 guid_size h1 h2]
    · have := guid_generate_invalid b p h guid guid_size guid_type hc
      exact ⟨this.2.1, this.2.2.1⟩
  · intro hg h1 h2 hr ht
    cases guid with
    | none => exact absurd rfl hg
    | some g =>
      have c1 : ¬ guid_size < GUID_SIZE := by unfold GUID_SIZE; omega
      have c2 : ¬ guid_size > p.SSIZE_MAX := by omega
      simp [guid_generate, c1, c2, hr, ht]

/-- C12 on the WINAPI build with the kind 3: the call fails and neither the
buffer nor the host is touched. -/
theorem C12_generate_failure_frame_witness :
    (guid_generate ⟨true, false, false, false⟩ platform64 host_example
        (some (List.replicate 16 7)) 16 3).ret = -1 ∧
    (guid_generate ⟨true, false, false, false⟩ platform64 host_example
        (some (List.replicate 16 7)) 16 3).error = some .ARGUMENT_ERROR_UNSUPPORTED_VALUE ∧
    (guid_generate ⟨true, false, false, false⟩ platform64 host_example
        (some (List.replicate 16 7)) 16 3).guid = some (List.replicate 16 7) ∧
    (guid_generate ⟨true, false, false, false⟩ platform64 host_example
        (some (List.replicate 16 7)) 16 3).calls = [] :=
  (C12_generate_failure_frame ⟨true, false, false, false⟩ platform64 host_example
    (some (List.replicate 16 7)) 16 3).2 (by simp) (by decide) (by decide) (by decide)
    (by decide)

/-- C13: a call of `guid_generate` that returns 1 keeps the length of the
buffer and every cell from index 16 on, in every build: with the flat `uuid_t`
of libuuid as with the structured record of WINAPI. -/
theorem C13_generate_success_frame (b : Build) (p : Platform) (h : Host) (g : List Nat)
    (guid_size guid_type : Nat)
    (hr : (guid_generate b p h (some g) guid_size guid_type).ret = 1) :
    ∃ out, (guid_generate b p h (some g) guid_size guid_type).guid = some out ∧
      out.length = g.length ∧ ∀ i, 16 ≤ i → out[i]? = g[i]? := by
  have hc : generate_checks_pass p (some g) guid_size guid_type := by
    by_contra hc
    have := (guid_generate_invalid b p h (some g) guid_size guid_type hc).1
    rw [hr] at this
    exact absurd this (by decide)
  obtain ⟨-, h1, h2, hk⟩ := hc
  rcases hk with hk | hk
  · rw [hk, guid_generate_random b p h g guid_size h1 h2]
    refine ⟨_, rfl, ?_, ?_⟩
    · cases b.WINAPI <;> cases b.HAVE_UUID_GENERATE_RANDOM <;>
        simp [store_uuid_length, store_cells_length]
    · intro i hi
      cases b.WINAPI <;> cases b.HAVE_UUID_GENERATE_RANDOM <;>
        simp [store_uuid_frame _ _ i hi, store_uuid_t_frame _ _ i hi]
  · rw [hk, guid_generate_time b p h g guid_size h1 h2]
    refine ⟨_, rfl, ?_, ?_⟩
    · cases b.WINAPI <;> cases b.HAVE_UUID_GENERATE_TIME <;>
        simp [store_uuid_length, store_cells_length]
    · intro i hi
      cases b.WINAPI <;> cases b.HAVE_UUID_GENERATE_TIME <;>
        simp [store_uuid_frame _ _ i hi, store_uuid_t_frame _ _ i hi]

/-- C13 on a buffer of 20 cells in the WINAPI build: the cells 16 and 19 keep
their 7. -/
theorem C13_generate_success_frame_witness :
    ∃ out, (guid_generate ⟨true, false, false, false⟩ platform64 host_example
        (some (List.replicate 20 7)) 20 1).guid = some out ∧
      out.length = 20 ∧ out[16]? = some 7 ∧ out[19]? = some 7 := by
  obtain ⟨out, h1, h2, h3⟩ :=
    C13_generate_success_frame ⟨true, false, false, false⟩ platform64 host_example
      (List.replicate 20 7) 20 1 (by decide)
  exact ⟨out, h1, by simpa using h2, by simpa using h3 16 (by decide),
    by simpa using h3 19 (by decide)⟩

/-- C14: in a WINAPI build a call of `guid_generate` that passes the argument
checks stores, for the record the host delivers, `Data1` little-endian in
bytes 0-3, `Data2` little-endian in bytes 4-5, `Data3` little-endian in bytes
6-7 and `Data4[0..7]` in bytes 8-15; decoding the buffer with that layout gives
a well-formed record back. -/
theorem C14_record_layout (b : Build) (p : Platform) (h : Host) (g : List Nat)
    (guid_size guid_type : Nat) (hw : b.WINAPI = true) (h1 : 16 ≤ guid_size)
    (h2 : guid_size ≤ p.SSIZE_MAX)
    (hk : guid_type = p.GUID_TYPE_RANDOM ∨ guid_type = p.GUID_TYPE_TIME)
    (hl : 16 ≤ g.length) :
    (guid_generate b p h (some g) guid_size guid_type).guid =
      some ([(h.record p guid_type).Data1 % 256, (h.record p guid_type).Data1 / 256 % 256,
        (h.record p guid_type).Data1 / 65536 % 256, (h.record p guid_type).Data1 / 16777216 % 256,
        (h.record p guid_type).Data2 % 256, (h.record p guid_type).Data2 / 256 % 256,
        (h.record p guid_type).Data3 % 256, (h.record p guid_type).Data3 / 256 % 256,
        (h.record p guid_type).Data4.getD 0 0 % 256, (h.record p guid_type).Data4.getD 1 0 % 256,
        (h.record p guid_type).Data4.getD 2 0 % 256, (h.record p guid_type).Data4.getD 3 0 % 256,
        (h.record p guid_type).Data4.getD 4 0 % 256, (h.record p guid_type).Data4.getD 5 0 % 256,
        (h.record p guid_type).Data4.getD 6 0 % 256, (h.record p guid_type).Data4.getD 7 0 % 256]
        ++ g.drop 16) ∧
    ((h.record p guid_type).well_formed →
      (guid_generate b p h (some g) guid_size guid_type).guid.map decode_record =
        some (h.record p guid_type)) := by
  rw [guid_generate_winapi b p h g guid_size guid_type hw h1 h2 hk, store_uuid_eq g _ hl]
  refine ⟨rfl, fun hwf => ?_⟩
  simp only [Option.map_some']
  rw [decode_encode _ hwf]

/-- C14 on the record `01020304-0506-0708-090a0b0c0d0e0f10` of the host: the
buffer holds `04 03 02 01 06 05 08 07 09 0a .. 10` and decodes to the
record. -/
theorem C14_record_layout_witness :
    (guid_generate ⟨true, false, false, false⟩ platform64 host_example
        (some (List.replicate 16 0)) 16 1).guid =
      some [4, 3, 2, 1, 6, 5, 8, 7, 9, 10, 11, 12, 13, 14, 15, 16] ∧
    (guid_generate ⟨true, false, false, false⟩ platform64 host_example
        (some (List.replicate 16 0)) 16 1).guid.map decode_record =
      some ⟨0x01020304, 0x0506, 0x0708, [9, 10, 11, 12, 13, 14, 15, 16]⟩ := by
  have e := C14_record_layout ⟨true, false, false, false⟩ platform64 host_example
    (List.replicate 16 0) 16 1 rfl (by decide) (by decide) (Or.inl rfl) (by decide)
  have hwf : (host_example.record platform64 1).well_formed := by
    unfold UUID.well_formed
    decide
  refine ⟨?_, ?_⟩
  · rw [e.1]
    decide
  · rw [e.2 hwf]
    decide

/-- C15: in a WINAPI build, formatting the buffer `guid_generate` filled from a
well-formed record with `guid_to_string` in little-endian mode stores the
canonical string of the record: 8 hex digits of `Data1`, 4 of `Data2`, 4 of
`Data3`, hex2 of `Data4[0]` and `Data4[1]`, hex2 of `Data4[2]` to `Data4[7]`,
with hyphens between the groups. -/
theorem C15_record_string (b : Build) (p : Platform) (h : Host) (g : List Nat)
    (guid_size guid_type : Nat) (s : List Char) (string_size : Nat) (hw : b.WINAPI = true)
    (h1 : 16 ≤ guid_size) (h2 : guid_size ≤ p.SSIZE_MAX)
    (hk : guid_type = p.GUID_TYPE_RANDOM ∨ guid_type = p.GUID_TYPE_TIME)
    (hl : 16 ≤ g.length) (h3 : 37 ≤ string_size) (h4 : string_size ≤ p.SSIZE_MAX)
    (hs : string_size ≤ s.length) (hwf : (h.record p guid_type).well_formed) :
    (guid_to_string p (guid_generate b p h (some g) guid_size guid_type).guid guid_size
        p.ENDIAN_LITTLE (some s) string_size).string.map (List.take 36) =
      some (printf_0x 8 (h.record p guid_type).Data1 ++ ['-'] ++
        printf_0x 4 (h.record p guid_type).Data2 ++ ['-'] ++
        printf_0x 4 (h.record p guid_type).Data3 ++ ['-'] ++
        hex2 ((h.record p guid_type).Data4.getD 0 0) ++
        hex2 ((h.record p guid_type).Data4.getD 1 0) ++ ['-'] ++
        hex2 ((h.record p guid_type).Data4.getD 2 0) ++
        hex2 ((h.record p guid_type).Data4.getD 3 0) ++
        hex2 ((h.record p guid_type).Data4.getD 4 0) ++
        hex2 ((h.record p guid_type).Data4.getD 5 0) ++
        hex2 ((h.record p guid_type).Data4.getD 6 0) ++
        hex2 ((h.record p guid_type).Data4.getD 7 0)) := by
  rw [guid_generate_winapi b p h g guid_size guid_type hw h1 h2 hk, store_uuid_eq g _ hl]
  simp only []
  rw [guid_to_string_little p _ guid_size s string_size h1 h2 h3 h4,
    store_canonical s _ _ (by omega), record_text_eq _ hwf]
  simp only [Option.map_some', List.append_assoc]
  rw [List.take_left' (record_text_length _ hwf)]
  simp only [record_text, List.append_assoc]

/-- C15 on the record `01020304-0506-0708-090a0b0c0d0e0f10` of the host: the
string stored is `01020304-0506-0708-090a-0b0c0d0e0f10`. -/
theorem C15_record_string_witness :
    (guid_to_string platform64 (guid_generate ⟨true, false, false, false⟩ platform64 host_example
        (some (List.replicate 16 0)) 16 1).guid 16 108 (some (List.replicate 37 'z'))
        37).string.map (List.take 36) =
      some "01020304-0506-0708-090a-0b0c0d0e0f10".toList := by
  have e := C15_record_string ⟨true, false, false, false⟩ platform64 host_example
    (List.replicate 16 0) 16 1 (List.replicate 37 'z') 37 rfl (by decide) (by decide)
    (Or.inl rfl) (by decide) (by decide) (by decide) (by decide) (by decide)
  rw [show (108 : Int) = platform64.ENDIAN_LITTLE from rfl, e]
  decide

/-- X1: when the primitive the kind selects is part of the build (any WINAPI
build, or a libuuid build with `uuid_generate_random` for the random kind and
`uuid_generate_time` for the time-based kind), a call of `guid_generate` that
passes the argument checks on a buffer of at least 16 cells returns 1, calls
exactly that primitive, and the first 16 bytes of the buffer are the identifier
it delivered. -/
theorem X1_generate_delivers (b : Build) (p : Platform) (h : Host) (g : List Nat)
    (guid_size guid_type : Nat) (h1 : 16 ≤ guid_size) (h2 : guid_size ≤ p.SSIZE_MAX)
    (hk : guid_type = p.GUID_TYPE_RANDOM ∨ guid_type = p.GUID_TYPE_TIME)
    (hl : 16 ≤ g.length)
    (hb : b.WINAPI = true ∨
      (if guid_type = p.GUID_TYPE_RANDOM then b.HAVE_UUID_GENERATE_RANDOM
        else b.HAVE_UUID_GENERATE_TIME) = true) :
    guid_generate b p h (some g) guid_size guid_type =
      ⟨1, none,
        some ((if b.WINAPI then encode_record_as_bytes (h.record p guid_type)
          else if guid_type = p.GUID_TYPE_RANDOM then uuid_t_bytes h.uuid_generate_random
          else uuid_t_bytes h.uuid_generate_time) ++ g.drop 16),
        [if b.WINAPI then
            (if guid_type = p.GUID_TYPE_RANDOM then .UuidCreate else .UuidCreateSequential)
          else if guid_type = p.GUID_TYPE_RANDOM then .uuid_generate_random
          else .uuid_generate_time]⟩ := by
  by_cases hw : b.WINAPI = true
  · rw [guid_generate_winapi b p h g guid_size guid_type hw h1 h2 hk, store_uuid_eq g _ hl]
    simp [hw]
  · have hw0 : b.WINAPI = false := by simpa using hw
    have c3 : ¬ p.GUID_TYPE_TIME = p.GUID_TYPE_RANDOM := fun e => p.type_distinct e.symm
    rcases hb with hb | hb
    · exact absurd hb hw
    · rcases hk with hk | hk
      · subst hk
        rw [if_pos rfl] at hb
        rw [guid_generate_random b p h g _ h1 h2,
          store_cells_zero _ _ (by rw [uuid_t_bytes_length]; exact hl), uuid_t_bytes_length]
        simp [hw0, hb]
      · subst hk
        rw [if_neg c3] at hb
        rw [guid_generate_time b p h g _ h1 h2,
          store_cells_zero _ _ (by rw [uuid_t_bytes_length]; exact hl), uuid_t_bytes_length]
        simp [hw0, hb, c3]

/-- X1 on the libuuid build with only `uuid_generate_time`, time-based kind:
the buffer receives the sixteen `22` of the host. -/
theorem X1_generate_delivers_witness :
    guid_generate build_time_only platform64 host_example (some (List.replicate 18 0)) 18 2 =
      ⟨1, none, some (List.replicate 16 0x22 ++ [0, 0]), [.uuid_generate_time]⟩ := by
  have e := X1_generate_delivers build_time_only platform64 host_example (List.replicate 18 0)
    18 2 (by decide) (by decide) (Or.inr rfl) (by decide) (Or.inr rfl)
  rw [e]
  decide

end Guid
